import Mathlib

/-!
# linuxcnc-ethercat: cyclic codecs, modparam identifiers and sync descriptors

A shallow embedding of the device drivers `lcec_el95xx.c`, `lcec_el2904.c`,
`lcec_ex260.c`, `lcec_ax5200.c` and of the modparam identifier table of
`lcec_class_cia402.h`.

Conventions of the embedding:

* the process image `master->process_data` (a `uint8_t *`) is a total map from
  byte offset to byte, a byte being a `Fin 256`;
* a HAL pin is a pointer into HAL shared memory; the record of a driver holds
  the pointee (the pin's current value) under the pin's name;
* C integers are natural numbers, truncated explicitly where the C code
  truncates (`uint8_t` stores).
-/

namespace Lcec

/-! ## Process image and the EtherCAT access macros -/

/-- One `uint8_t` of the process image. -/
abbrev Byte := Fin 256

/-- The process image: `uint8_t *pd = master->process_data`, indexed by byte offset. -/
abbrev ProcessData := Nat → Byte

/-- Conversion of a C integer to `uint8_t`: the value modulo 256. -/
def toByte (v : Nat) : Byte := ⟨v % 256, Nat.mod_lt v (by decide)⟩

/-- The store `pd[os] = b`. -/
def store (pd : ProcessData) (os : Nat) (b : Byte) : ProcessData :=
  fun a => if a = os then b else pd a

/-- Modelled from the spec: the macro `EC_READ_BIT` of the EtherCAT master
header `ecrt.h`, which is not among the sources. Single-bit extraction:
`(*(uint8_t *) DATA >> POS) & 0x01`, with `DATA = &pd[os]`. -/
def EC_READ_BIT (pd : ProcessData) (os pos : Nat) : Nat :=
  ((pd os).val >>> pos) &&& 1

/-- Modelled from the spec: the macro `EC_WRITE_BIT` of `ecrt.h`, which is not
among the sources. A bit-level write: `if (VAL) *DATA |= (1 << POS); else
*DATA &= ~(1 << POS);` on the `uint8_t` at `DATA = &pd[os]`; `1 << POS` is a
32-bit `int`, so its complement is `0xFFFFFFFF - (1 << POS)`, and the result is
stored back into a `uint8_t`. -/
def EC_WRITE_BIT (pd : ProcessData) (os pos val : Nat) : ProcessData :=
  if val ≠ 0 then store pd os (toByte ((pd os).val ||| (1 <<< pos)))
  else store pd os (toByte ((pd os).val &&& (0xFFFFFFFF - (1 <<< pos))))

/-- Modelled from the spec: the macro `EC_READ_U8` of `ecrt.h`, which is not
among the sources: the `uint8_t` at `&pd[os]`. -/
def EC_READ_U8 (pd : ProcessData) (os : Nat) : Nat := (pd os).val

/-- Modelled from the spec: the macro `EC_READ_U16` of `ecrt.h`, which is not
among the sources: little-endian extraction of the `uint16_t` at `&pd[os]`, the
byte at the lower address being the low byte. -/
def EC_READ_U16 (pd : ProcessData) (os : Nat) : Nat :=
  (pd os).val ||| ((pd (os + 1)).val <<< 8)

/-- Modelled from the spec: the macro `EC_WRITE_U8` of `ecrt.h`, which is not
among the sources: `*(uint8_t *) DATA = (uint8_t) VAL` with `DATA = &pd[os]`. -/
def EC_WRITE_U8 (pd : ProcessData) (os val : Nat) : ProcessData :=
  store pd os (toByte val)

/-! ## The slave record -/

/-- The part of `ec_slave_config_state_t` read by the drivers. -/
structure ec_slave_config_state_t where
  operational : Bool
deriving DecidableEq, Repr

/-- The direction of a sync manager (`ec_direction_t`). -/
inductive ec_direction_t where
  | EC_DIR_OUTPUT
  | EC_DIR_INPUT
deriving DecidableEq, Repr

/-- The watchdog policy of a sync manager (`ec_watchdog_mode_t`). -/
inductive ec_watchdog_mode_t where
  | EC_WD_DEFAULT
  | EC_WD_ENABLE
  | EC_WD_DISABLE
deriving DecidableEq, Repr

/-- A PDO entry `(index, subindex, bit_length)` (`ec_pdo_entry_info_t`). -/
structure ec_pdo_entry_info_t where
  index : Nat
  subindex : Nat
  bit_length : Nat
deriving DecidableEq, Repr

/-- A PDO group with its ordered entries (`ec_pdo_info_t`). -/
structure ec_pdo_info_t where
  index : Nat
  entries : List ec_pdo_entry_info_t
deriving DecidableEq, Repr

/-- A sync manager with its ordered PDO groups (`ec_sync_info_t`). -/
structure ec_sync_info_t where
  dir : ec_direction_t
  pdos : List ec_pdo_info_t
  watchdog_mode : ec_watchdog_mode_t
deriving DecidableEq, Repr

/-- The FSoE configuration record `LCEC_CONF_FSOE_T`. -/
structure LCEC_CONF_FSOE_T where
  slave_data_len : Nat
  master_data_len : Nat
  data_channels : Nat
deriving DecidableEq, Repr

/-- The cyclic callbacks a driver can install in `proc_read` / `proc_write`. -/
inductive lcec_proc_t where
  | lcec_el95xx_read
  | lcec_el2904_read
  | lcec_el2904_write
  | lcec_ex260_write
  | lcec_ax5200_read
  | lcec_ax5200_write
deriving DecidableEq, Repr

/-- The fields of `struct lcec_slave` used by the drivers. `H` is the content
behind the `hal_data` pointer: the driver's record in the cyclic phase, and an
optional record (`none` for `NULL`) during bring-up. -/
structure lcec_slave (H : Type) where
  process_data : ProcessData
  state : ec_slave_config_state_t
  flags : Nat
  fsoeConf : Option LCEC_CONF_FSOE_T
  proc_read : Option lcec_proc_t
  proc_write : Option lcec_proc_t
  sync_info : Option (List ec_sync_info_t)
  hal_data : H

/-! ## lcec_el95xx.c -/

/-- The record `lcec_el95xx_data_t`: two bit pins and their resolved locations. -/
structure lcec_el95xx_data_t where
  power_ok : Nat
  overload : Nat
  power_ok_pdo_os : Nat
  power_ok_pdo_bp : Nat
  overload_pdo_os : Nat
  overload_pdo_bp : Nat
deriving DecidableEq, Repr

/-- The function `lcec_el95xx_read`: returns at once unless the slave is
operational, else loads both pins with `EC_READ_BIT`. -/
def lcec_el95xx_read (slave : lcec_slave lcec_el95xx_data_t) : lcec_slave lcec_el95xx_data_t :=
  let hal_data := slave.hal_data
  let pd := slave.process_data
  if !slave.state.operational then slave
  else
    let hal_data := { hal_data with
      power_ok := EC_READ_BIT pd hal_data.power_ok_pdo_os hal_data.power_ok_pdo_bp }
    let hal_data := { hal_data with
      overload := EC_READ_BIT pd hal_data.overload_pdo_os hal_data.overload_pdo_bp }
    { slave with hal_data := hal_data }

/-! ## lcec_el2904.c -/

/-- The record `lcec_el2904_data_t`: the FSoE pins, the four output pins and
the resolved locations of all of them. -/
structure lcec_el2904_data_t where
  fsoe_master_cmd : Nat
  fsoe_master_crc : Nat
  fsoe_master_connid : Nat
  fsoe_slave_cmd : Nat
  fsoe_slave_crc : Nat
  fsoe_slave_connid : Nat
  fsoe_out_0 : Nat
  fsoe_out_1 : Nat
  fsoe_out_2 : Nat
  fsoe_out_3 : Nat
  out_0 : Nat
  out_1 : Nat
  out_2 : Nat
  out_3 : Nat
  fsoe_master_cmd_os : Nat
  fsoe_master_crc_os : Nat
  fsoe_master_connid_os : Nat
  fsoe_slave_cmd_os : Nat
  fsoe_slave_crc_os : Nat
  fsoe_slave_connid_os : Nat
  fsoe_out_0_os : Nat
  fsoe_out_0_bp : Nat
  fsoe_out_1_os : Nat
  fsoe_out_1_bp : Nat
  fsoe_out_2_os : Nat
  fsoe_out_2_bp : Nat
  fsoe_out_3_os : Nat
  fsoe_out_3_bp : Nat
  out_0_os : Nat
  out_0_bp : Nat
  out_1_os : Nat
  out_1_bp : Nat
  out_2_os : Nat
  out_2_bp : Nat
  out_3_os : Nat
  out_3_bp : Nat
deriving DecidableEq, Repr

/-- The function `lcec_el2904_read`. The helper `copy_fsoe_data(slave,
slave_offset, master_offset)` is defined outside the sources and is a
parameter: it yields the process image after the FSoE copy step. All ten input
pins are then loaded from that image; there is no test of the operational
flag. -/
def lcec_el2904_read
    (copy_fsoe_data : lcec_slave lcec_el2904_data_t → Nat → Nat → ProcessData)
    (slave : lcec_slave lcec_el2904_data_t) : lcec_slave lcec_el2904_data_t :=
  let hal_data := slave.hal_data
  let pd := copy_fsoe_data slave hal_data.fsoe_slave_cmd_os hal_data.fsoe_master_cmd_os
  let hal_data := { hal_data with fsoe_slave_cmd := EC_READ_U8 pd hal_data.fsoe_slave_cmd_os }
  let hal_data := { hal_data with fsoe_slave_crc := EC_READ_U16 pd hal_data.fsoe_slave_crc_os }
  let hal_data := { hal_data with
    fsoe_slave_connid := EC_READ_U16 pd hal_data.fsoe_slave_connid_os }
  let hal_data := { hal_data with fsoe_master_cmd := EC_READ_U8 pd hal_data.fsoe_master_cmd_os }
  let hal_data := { hal_data with fsoe_master_crc := EC_READ_U16 pd hal_data.fsoe_master_crc_os }
  let hal_data := { hal_data with
    fsoe_master_connid := EC_READ_U16 pd hal_data.fsoe_master_connid_os }
  let hal_data := { hal_data with
    fsoe_out_0 := EC_READ_BIT pd hal_data.fsoe_out_0_os hal_data.fsoe_out_0_bp }
  let hal_data := { hal_data with
    fsoe_out_1 := EC_READ_BIT pd hal_data.fsoe_out_1_os hal_data.fsoe_out_1_bp }
  let hal_data := { hal_data with
    fsoe_out_2 := EC_READ_BIT pd hal_data.fsoe_out_2_os hal_data.fsoe_out_2_bp }
  let hal_data := { hal_data with
    fsoe_out_3 := EC_READ_BIT pd hal_data.fsoe_out_3_os hal_data.fsoe_out_3_bp }
  { slave with process_data := pd, hal_data := hal_data }

/-- The function `lcec_el2904_write`: four `EC_WRITE_BIT` in sequence, with no
test of the operational flag. -/
def lcec_el2904_write (slave : lcec_slave lcec_el2904_data_t) : lcec_slave lcec_el2904_data_t :=
  let hal_data := slave.hal_data
  let pd := slave.process_data
  let pd := EC_WRITE_BIT pd hal_data.out_0_os hal_data.out_0_bp hal_data.out_0
  let pd := EC_WRITE_BIT pd hal_data.out_1_os hal_data.out_1_bp hal_data.out_1
  let pd := EC_WRITE_BIT pd hal_data.out_2_os hal_data.out_2_bp hal_data.out_2
  let pd := EC_WRITE_BIT pd hal_data.out_3_os hal_data.out_3_bp hal_data.out_3
  { slave with process_data := pd }

/-! ## lcec_ex260.c -/

/-- The record `lcec_ex260_pin_t`: the eight solenoid pins of one valve bank
and the resolved location of the bank's byte. -/
structure lcec_ex260_pin_t where
  sol_1a : Nat
  sol_1b : Nat
  sol_2a : Nat
  sol_2b : Nat
  sol_3a : Nat
  sol_3b : Nat
  sol_4a : Nat
  sol_4b : Nat
  pdo_os : Nat
  pdo_bp : Nat
deriving DecidableEq, Repr

/-- The value of the local `s` at the end of one iteration of the loop of
`lcec_ex260_write`: the eight pins of the bank or-ed together, the k-th shifted
left by k. -/
def lcec_ex260_s (pin : lcec_ex260_pin_t) : Nat :=
  let s := pin.sol_1a
  let s := s ||| (pin.sol_1b <<< 1)
  let s := s ||| (pin.sol_2a <<< 2)
  let s := s ||| (pin.sol_2b <<< 3)
  let s := s ||| (pin.sol_3a <<< 4)
  let s := s ||| (pin.sol_3b <<< 5)
  let s := s ||| (pin.sol_4a <<< 6)
  let s := s ||| (pin.sol_4b <<< 7)
  s

/-- The loop `for (i = 0, pin = hal_data; i < slave->flags; i++, pin++)` of
`lcec_ex260_write`: the process image after its first `n` iterations. The
record behind `hal_data` is an array of banks, indexed here by position;
iteration `i` stores the byte of bank `i` with `EC_WRITE_U8`. -/
def lcec_ex260_write_loop (hal_data : Nat → lcec_ex260_pin_t) (pd : ProcessData) :
    Nat → ProcessData
  | 0 => pd
  | i + 1 =>
    let pd := lcec_ex260_write_loop hal_data pd i
    EC_WRITE_U8 pd (hal_data i).pdo_os (lcec_ex260_s (hal_data i))

/-- The function `lcec_ex260_write`: returns at once unless the slave is
operational, else runs the loop over the `slave->flags` banks. -/
def lcec_ex260_write (slave : lcec_slave (Nat → lcec_ex260_pin_t)) :
    lcec_slave (Nat → lcec_ex260_pin_t) :=
  let hal_data := slave.hal_data
  let pd := slave.process_data
  if !slave.state.operational then slave
  else { slave with process_data := lcec_ex260_write_loop hal_data pd slave.flags }

/-- The eight solenoid pins of a bank in the order 1a, 1b, 2a, 2b, 3a, 3b, 4a, 4b. -/
def lcec_ex260_pins (pin : lcec_ex260_pin_t) : List Nat :=
  [pin.sol_1a, pin.sol_1b, pin.sol_2a, pin.sol_2b, pin.sol_3a, pin.sol_3b, pin.sol_4a,
   pin.sol_4b]

/-! ## lcec_class_cia402.h: the modparam identifiers -/

def CIA402_MP_BASE : Nat := 0x1000
def CIA402_MP_POSLIMIT_MIN : Nat := 0x1000
def CIA402_MP_POSLIMIT_MAX : Nat := 0x1010
def CIA402_MP_SWPOSLIMIT_MIN : Nat := 0x1020
def CIA402_MP_SWPOSLIMIT_MAX : Nat := 0x1030
def CIA402_MP_HOME_OFFSET : Nat := 0x1040
def CIA402_MP_MAXMOTORSPEED : Nat := 0x1060
def CIA402_MP_QUICKDECEL : Nat := 0x10b0
def CIA402_MP_OPTCODE_QUICKSTOP : Nat := 0x10c0
def CIA402_MP_OPTCODE_SHUTDOWN : Nat := 0x10d0
def CIA402_MP_OPTCODE_DISABLE : Nat := 0x10e0
def CIA402_MP_OPTCODE_HALT : Nat := 0x10f0
def CIA402_MP_OPTCODE_FAULT : Nat := 0x1100
def CIA402_MP_PROBE_FUNCTION : Nat := 0x1150
def CIA402_MP_PROBE1_POS : Nat := 0x1160
def CIA402_MP_PROBE1_NEG : Nat := 0x1170
def CIA402_MP_PROBE2_POS : Nat := 0x1180
def CIA402_MP_PROBE2_NEG : Nat := 0x1190
def CIA402_MP_ENABLE_ACTUAL_CURRENT : Nat := 0x22d0
def CIA402_MP_ENABLE_ACTUAL_FOLLOWING_ERROR : Nat := 0x2100
def CIA402_MP_ENABLE_ACTUAL_TORQUE : Nat := 0x2110
def CIA402_MP_ENABLE_ACTUAL_VELOCITY_SENSOR : Nat := 0x2120
def CIA402_MP_ENABLE_ACTUAL_VL : Nat := 0x2330
def CIA402_MP_ENABLE_ACTUAL_VOLTAGE : Nat := 0x22e0
def CIA402_MP_ENABLE_CSP : Nat := 0x2020
def CIA402_MP_ENABLE_CST : Nat := 0x2080
def CIA402_MP_ENABLE_CSV : Nat := 0x2030
def CIA402_MP_ENABLE_DEMAND_VL : Nat := 0x2320
def CIA402_MP_ENABLE_FOLLOWING_ERROR_TIMEOUT : Nat := 0x2130
def CIA402_MP_ENABLE_FOLLOWING_ERROR_WINDOW : Nat := 0x2140
def CIA402_MP_ENABLE_HM : Nat := 0x2040
def CIA402_MP_ENABLE_HOME_ACCEL : Nat := 0x2150
def CIA402_MP_ENABLE_INTERPOLATION_TIME_PERIOD : Nat := 0x2160
def CIA402_MP_ENABLE_IP : Nat := 0x2050
def CIA402_MP_ENABLE_MAXIMUM_ACCELERATION : Nat := 0x2170
def CIA402_MP_ENABLE_MAXIMUM_CURRENT : Nat := 0x22a0
def CIA402_MP_ENABLE_MAXIMUM_DECELERATION : Nat := 0x2180
def CIA402_MP_ENABLE_MAXIMUM_MOTOR_RPM : Nat := 0x2190
def CIA402_MP_ENABLE_MAXIMUM_TORQUE : Nat := 0x21a0
def CIA402_MP_ENABLE_MOTION_PROFILE : Nat := 0x21b0
def CIA402_MP_ENABLE_MOTOR_RATED_CURRENT : Nat := 0x22c0
def CIA402_MP_ENABLE_MOTOR_RATED_TORQUE : Nat := 0x21c0
def CIA402_MP_ENABLE_POLARITY : Nat := 0x21d0
def CIA402_MP_ENABLE_PP : Nat := 0x2000
def CIA402_MP_ENABLE_PROFILE_ACCEL : Nat := 0x21e0
def CIA402_MP_ENABLE_PROFILE_DECEL : Nat := 0x21f0
def CIA402_MP_ENABLE_PROFILE_END_VELOCITY : Nat := 0x2200
def CIA402_MP_ENABLE_PROFILE_MAX_VELOCITY : Nat := 0x2210
def CIA402_MP_ENABLE_PROFILE_VELOCITY : Nat := 0x2220
def CIA402_MP_ENABLE_PV : Nat := 0x2010
def CIA402_MP_ENABLE_TARGET_TORQUE : Nat := 0x2290
def CIA402_MP_ENABLE_TARGET_VL : Nat := 0x2310
def CIA402_MP_ENABLE_TORQUE_DEMAND : Nat := 0x22b0
def CIA402_MP_ENABLE_TORQUE_PROFILE_TYPE : Nat := 0x2300
def CIA402_MP_ENABLE_TORQUE_SLOPE : Nat := 0x22f0
def CIA402_MP_ENABLE_TQ : Nat := 0x2070
def CIA402_MP_ENABLE_VELOCITY_DEMAND : Nat := 0x2230
def CIA402_MP_ENABLE_VELOCITY_ERROR_TIME : Nat := 0x2240
def CIA402_MP_ENABLE_VELOCITY_ERROR_WINDOW : Nat := 0x2250
def CIA402_MP_ENABLE_VELOCITY_SENSOR_SELECTOR : Nat := 0x2260
def CIA402_MP_ENABLE_VELOCITY_THRESHOLD_TIME : Nat := 0x2270
def CIA402_MP_ENABLE_VELOCITY_THRESHOLD_WINDOW : Nat := 0x2280
def CIA402_MP_ENABLE_VL : Nat := 0x2060
def CIA402_MP_ENABLE_VL_ACCEL : Nat := 0x2360
def CIA402_MP_ENABLE_VL_DECEL : Nat := 0x2370
def CIA402_MP_ENABLE_VL_MAXIMUM : Nat := 0x2350
def CIA402_MP_ENABLE_VL_MINIMUM : Nat := 0x2340

/-- The table of all `CIA402_MP_*` identifiers of the header, in the order of
their definition (the bound `CIA402_MP_BASE` is not an identifier). -/
def CIA402_MP_table : List Nat :=
  [CIA402_MP_POSLIMIT_MIN, CIA402_MP_POSLIMIT_MAX, CIA402_MP_SWPOSLIMIT_MIN,
   CIA402_MP_SWPOSLIMIT_MAX, CIA402_MP_HOME_OFFSET, CIA402_MP_MAXMOTORSPEED,
   CIA402_MP_QUICKDECEL, CIA402_MP_OPTCODE_QUICKSTOP, CIA402_MP_OPTCODE_SHUTDOWN,
   CIA402_MP_OPTCODE_DISABLE, CIA402_MP_OPTCODE_HALT, CIA402_MP_OPTCODE_FAULT,
   CIA402_MP_PROBE_FUNCTION, CIA402_MP_PROBE1_POS, CIA402_MP_PROBE1_NEG, CIA402_MP_PROBE2_POS,
   CIA402_MP_PROBE2_NEG, CIA402_MP_ENABLE_ACTUAL_CURRENT,
   CIA402_MP_ENABLE_ACTUAL_FOLLOWING_ERROR, CIA402_MP_ENABLE_ACTUAL_TORQUE,
   CIA402_MP_ENABLE_ACTUAL_VELOCITY_SENSOR, CIA402_MP_ENABLE_ACTUAL_VL,
   CIA402_MP_ENABLE_ACTUAL_VOLTAGE, CIA402_MP_ENABLE_CSP, CIA402_MP_ENABLE_CST,
   CIA402_MP_ENABLE_CSV, CIA402_MP_ENABLE_DEMAND_VL, CIA402_MP_ENABLE_FOLLOWING_ERROR_TIMEOUT,
   CIA402_MP_ENABLE_FOLLOWING_ERROR_WINDOW, CIA402_MP_ENABLE_HM, CIA402_MP_ENABLE_HOME_ACCEL,
   CIA402_MP_ENABLE_INTERPOLATION_TIME_PERIOD, CIA402_MP_ENABLE_IP,
   CIA402_MP_ENABLE_MAXIMUM_ACCELERATION, CIA402_MP_ENABLE_MAXIMUM_CURRENT,
   CIA402_MP_ENABLE_MAXIMUM_DECELERATION, CIA402_MP_ENABLE_MAXIMUM_MOTOR_RPM,
   CIA402_MP_ENABLE_MAXIMUM_TORQUE, CIA402_MP_ENABLE_MOTION_PROFILE,
   CIA402_MP_ENABLE_MOTOR_RATED_CURRENT, CIA402_MP_ENABLE_MOTOR_RATED_TORQUE,
   CIA402_MP_ENABLE_POLARITY, CIA402_MP_ENABLE_PP, CIA402_MP_ENABLE_PROFILE_ACCEL,
   CIA402_MP_ENABLE_PROFILE_DECEL, CIA402_MP_ENABLE_PROFILE_END_VELOCITY,
   CIA402_MP_ENABLE_PROFILE_MAX_VELOCITY, CIA402_MP_ENABLE_PROFILE_VELOCITY, CIA402_MP_ENABLE_PV,
   CIA402_MP_ENABLE_TARGET_TORQUE, CIA402_MP_ENABLE_TARGET_VL, CIA402_MP_ENABLE_TORQUE_DEMAND,
   CIA402_MP_ENABLE_TORQUE_PROFILE_TYPE, CIA402_MP_ENABLE_TORQUE_SLOPE, CIA402_MP_ENABLE_TQ,
   CIA402_MP_ENABLE_VELOCITY_DEMAND, CIA402_MP_ENABLE_VELOCITY_ERROR_TIME,
   CIA402_MP_ENABLE_VELOCITY_ERROR_WINDOW, CIA402_MP_ENABLE_VELOCITY_SENSOR_SELECTOR,
   CIA402_MP_ENABLE_VELOCITY_THRESHOLD_TIME, CIA402_MP_ENABLE_VELOCITY_THRESHOLD_WINDOW,
   CIA402_MP_ENABLE_VL, CIA402_MP_ENABLE_VL_ACCEL, CIA402_MP_ENABLE_VL_DECEL,
   CIA402_MP_ENABLE_VL_MAXIMUM, CIA402_MP_ENABLE_VL_MINIMUM]

/-- Modelled from the spec: the body of `lcec_cia402_channelized_modparams` is
not among the sources (the header only declares it). The derived identifier of
the original identifier `id` for channel index `c` is `id + c`: the header
reserves 7 unused identifiers after each one for this purpose. -/
def channelized_id (id c : Nat) : Nat := id + c

/-- Modelled from the spec: the body of `lcec_cia402_channelized_modparams` is
not among the sources. For `N` channels it produces `N` catalogs, one per
channel index `0..N-1`, each holding the derived identifier of every original
identifier; this is their concatenation. -/
def lcec_cia402_channelized_modparams (N : Nat) (orig : List Nat) : List Nat :=
  (List.range N).flatMap fun c => orig.map fun id => channelized_id id c

/-! ## lcec_ax5200.c -/

/-- Applies `f` to the last element of a list; the empty list is unchanged. -/
def modifyLast {α : Type} (f : α → α) : List α → List α
  | [] => []
  | [a] => [f a]
  | a :: b :: l => a :: modifyLast f (b :: l)

/-- The builder state `lcec_syncs_t`: the sync managers appended so far, in order. -/
structure lcec_syncs_t where
  syncs : List ec_sync_info_t
deriving DecidableEq, Repr

/-- Modelled from the spec: `lcec_syncs_init` is defined outside the sources.
It resets the builder: no sync manager yet. -/
def lcec_syncs_init (_syncs : lcec_syncs_t) : lcec_syncs_t := { syncs := [] }

/-- Modelled from the spec: `lcec_syncs_add_sync` is defined outside the
sources. It starts a sync manager with the given direction and watchdog policy,
with no PDO group yet; it becomes the open sync manager. -/
def lcec_syncs_add_sync (syncs : lcec_syncs_t) (dir : ec_direction_t)
    (watchdog_mode : ec_watchdog_mode_t) : lcec_syncs_t :=
  { syncs := syncs.syncs ++ [{ dir := dir, pdos := [], watchdog_mode := watchdog_mode }] }

/-- Modelled from the spec: `lcec_syncs_add_pdo_info` is defined outside the
sources. It starts a PDO group with the given index, with no entry yet, in the
open sync manager; it becomes the open PDO group. -/
def lcec_syncs_add_pdo_info (syncs : lcec_syncs_t) (index : Nat) : lcec_syncs_t :=
  let pdo : ec_pdo_info_t := { index := index, entries := [] }
  { syncs := modifyLast (fun s => { s with pdos := s.pdos ++ [pdo] }) syncs.syncs }

/-- Modelled from the spec: `lcec_syncs_add_pdo_entry` is defined outside the
sources. It appends the entry `(index, subindex, bit_length)` to the open PDO
group. -/
def lcec_syncs_add_pdo_entry (syncs : lcec_syncs_t) (index subindex bit_length : Nat) :
    lcec_syncs_t :=
  let entry : ec_pdo_entry_info_t :=
    { index := index, subindex := subindex, bit_length := bit_length }
  let add_entry : ec_pdo_info_t → ec_pdo_info_t :=
    fun p => { p with entries := p.entries ++ [entry] }
  { syncs := modifyLast (fun s => { s with pdos := modifyLast add_entry s.pdos }) syncs.syncs }

/-- The fields of `lcec_class_ax5_chan_t` read by `lcec_ax5200_init`. -/
structure lcec_class_ax5_chan_t where
  fb2_enabled : Bool
  diag_enabled : Bool
deriving DecidableEq, Repr

/-- Modelled from the spec: the constant `LCEC_AX5200_CHANS` of the header
`lcec_ax5200.h`, which is not among the sources; the driver addresses the two
channels `chans[0]` and `chans[1]`. -/
def LCEC_AX5200_CHANS : Nat := 2

/-- The record `lcec_ax5200_data_t`; the array `chans` is indexed by position. -/
structure lcec_ax5200_data_t where
  syncs : lcec_syncs_t
  chans : Nat → lcec_class_ax5_chan_t

/-- The error number `EIO`. -/
def EIO : Int := 5

/-- The loop `for (i = 0; i < LCEC_AX5200_CHANS; i++)` of `lcec_ax5200_init`
over the channel indices still to visit: it initialises `chans[i]` with
`lcec_class_ax5_init` (defined outside the sources, a parameter here: from the
channel index and the zeroed channel record to an error code and the
initialised record) and stops at the first non-zero error code. -/
def lcec_ax5200_init_chans
    (lcec_class_ax5_init : Nat → lcec_class_ax5_chan_t → Int × lcec_class_ax5_chan_t) :
    List Nat → (Nat → lcec_class_ax5_chan_t) → Int × (Nat → lcec_class_ax5_chan_t)
  | [], chans => (0, chans)
  | i :: rest, chans =>
    let r := lcec_class_ax5_init i (chans i)
    let chans := fun j => if j = i then r.2 else chans j
    if r.1 ≠ 0 then (r.1, chans)
    else lcec_ax5200_init_chans lcec_class_ax5_init rest chans

/-- The part "initialize sync info" of `lcec_ax5200_init` (lines 98 to 135): the
calls of the builder in the order of the source text. -/
def lcec_ax5200_init_syncs (hal_data : lcec_ax5200_data_t) : lcec_syncs_t :=
  let syncs := lcec_syncs_init hal_data.syncs
  let syncs := lcec_syncs_add_sync syncs .EC_DIR_OUTPUT .EC_WD_DEFAULT
  let syncs := lcec_syncs_add_sync syncs .EC_DIR_INPUT .EC_WD_DEFAULT
  let syncs := lcec_syncs_add_sync syncs .EC_DIR_OUTPUT .EC_WD_DEFAULT
  let syncs := lcec_syncs_add_pdo_info syncs 0x0018
  let syncs := lcec_syncs_add_pdo_entry syncs 0x0086 0x01 16
  let syncs := lcec_syncs_add_pdo_entry syncs 0x0018 0x01 32
  let syncs := lcec_syncs_add_pdo_info syncs 0x1018
  let syncs := lcec_syncs_add_pdo_entry syncs 0x0086 0x02 16
  let syncs := lcec_syncs_add_pdo_entry syncs 0x0018 0x02 32
  let syncs := lcec_syncs_add_sync syncs .EC_DIR_INPUT .EC_WD_DEFAULT
  let syncs := lcec_syncs_add_pdo_info syncs 0x0010
  let syncs := lcec_syncs_add_pdo_entry syncs 0x0087 0x01 16
  let syncs := lcec_syncs_add_pdo_entry syncs 0x0033 0x01 32
  let syncs := lcec_syncs_add_pdo_entry syncs 0x0054 0x01 16
  let syncs := if (hal_data.chans 0).fb2_enabled then
    lcec_syncs_add_pdo_entry syncs 0x0035 0x01 32 else syncs
  let syncs := if (hal_data.chans 0).diag_enabled then
    lcec_syncs_add_pdo_entry syncs 0x0186 0x01 32 else syncs
  let syncs := lcec_syncs_add_pdo_info syncs 0x1010
  let syncs := lcec_syncs_add_pdo_entry syncs 0x0087 0x02 16
  let syncs := lcec_syncs_add_pdo_entry syncs 0x0033 0x02 32
  let syncs := lcec_syncs_add_pdo_entry syncs 0x0054 0x02 16
  let syncs := if (hal_data.chans 1).fb2_enabled then
    lcec_syncs_add_pdo_entry syncs 0x0035 0x02 32 else syncs
  let syncs := if (hal_data.chans 1).diag_enabled then
    lcec_syncs_add_pdo_entry syncs 0x0186 0x02 32 else syncs
  syncs

/-- The function `lcec_ax5200_init`, returning the error code and the slave
after the call. The parameter `hal_malloc_ok` tells whether `hal_malloc`
returned a non-`NULL` pointer; `lcec_class_ax5_init` is as in
`lcec_ax5200_init_chans`. The callbacks are installed first; a failed
allocation returns `-EIO`; the record is zeroed and bound to `hal_data`; the
channels are initialised, the first error being returned; then the sync
descriptor is built and bound to `sync_info`. -/
def lcec_ax5200_init (hal_malloc_ok : Bool)
    (lcec_class_ax5_init : Nat → lcec_class_ax5_chan_t → Int × lcec_class_ax5_chan_t)
    (slave : lcec_slave (Option lcec_ax5200_data_t)) :
    Int × lcec_slave (Option lcec_ax5200_data_t) :=
  let slave := { slave with proc_read := some .lcec_ax5200_read }
  let slave := { slave with proc_write := some .lcec_ax5200_write }
  if !hal_malloc_ok then (- EIO, slave)
  else
    let hal_data : lcec_ax5200_data_t :=
      { syncs := { syncs := [] },
        chans := fun _ => { fb2_enabled := false, diag_enabled := false } }
    let slave := { slave with hal_data := some hal_data }
    let r := lcec_ax5200_init_chans lcec_class_ax5_init (List.range LCEC_AX5200_CHANS)
      hal_data.chans
    let hal_data := { hal_data with chans := r.2 }
    let slave := { slave with hal_data := some hal_data }
    if r.1 ≠ 0 then (r.1, slave)
    else
      let hal_data := { hal_data with syncs := lcec_ax5200_init_syncs hal_data }
      let slave := { slave with
        hal_data := some hal_data, sync_info := some hal_data.syncs.syncs }
      (0, slave)

/-- The four bit locations `(out_k_os, out_k_bp)`, `k = 0..3`, written by
`lcec_el2904_write`. -/
def lcec_el2904_out_locations (hal_data : lcec_el2904_data_t) : List (Nat × Nat) :=
  [(hal_data.out_0_os, hal_data.out_0_bp), (hal_data.out_1_os, hal_data.out_1_bp),
   (hal_data.out_2_os, hal_data.out_2_bp), (hal_data.out_3_os, hal_data.out_3_bp)]

/-- The process image seen by the loads of `lcec_el2904_read`: the one left by
the call `copy_fsoe_data(slave, hal_data->fsoe_slave_cmd_os,
hal_data->fsoe_master_cmd_os)`. -/
def lcec_el2904_pd_after_copy
    (copy_fsoe_data : lcec_slave lcec_el2904_data_t → Nat → Nat → ProcessData)
    (slave : lcec_slave lcec_el2904_data_t) : ProcessData :=
  copy_fsoe_data slave slave.hal_data.fsoe_slave_cmd_os slave.hal_data.fsoe_master_cmd_os

/-! ## Concrete inputs -/

/-- A process image with varied content: byte `a` holds `37 * a + 0xA5` modulo 256. -/
def pd_example : ProcessData := fun a => toByte (37 * a + 0xA5)

/-- A slave record around `pd_example` with the given operational flag and
driver record. -/
def slave_example {H : Type} (operational : Bool) (flags : Nat) (hal_data : H) : lcec_slave H :=
  { process_data := pd_example, state := { operational := operational }, flags := flags,
    fsoeConf := none, proc_read := none, proc_write := none, sync_info := none,
    hal_data := hal_data }

/-- An EL95xx record: both pins set, both bits located in byte 3 (which holds
`0x14` in `pd_example`: bit 2 set, bit 1 clear). -/
def el95xx_example : lcec_el95xx_data_t :=
  { power_ok := 1, overload := 1, power_ok_pdo_os := 3, power_ok_pdo_bp := 2,
    overload_pdo_os := 3, overload_pdo_bp := 1 }

/-- An EL2904 record: the four outputs are the bits 0 to 3 of byte 2, the
pins `out_0` and `out_2` are set. -/
def el2904_example : lcec_el2904_data_t :=
  { fsoe_master_cmd := 0, fsoe_master_crc := 0, fsoe_master_connid := 0,
    fsoe_slave_cmd := 0, fsoe_slave_crc := 0, fsoe_slave_connid := 0,
    fsoe_out_0 := 0, fsoe_out_1 := 0, fsoe_out_2 := 0, fsoe_out_3 := 0,
    out_0 := 1, out_1 := 0, out_2 := 1, out_3 := 0,
    fsoe_master_cmd_os := 0, fsoe_master_crc_os := 3, fsoe_master_connid_os := 5,
    fsoe_slave_cmd_os := 8, fsoe_slave_crc_os := 10, fsoe_slave_connid_os := 12,
    fsoe_out_0_os := 1, fsoe_out_0_bp := 0, fsoe_out_1_os := 1, fsoe_out_1_bp := 1,
    fsoe_out_2_os := 1, fsoe_out_2_bp := 2, fsoe_out_3_os := 1, fsoe_out_3_bp := 3,
    out_0_os := 2, out_0_bp := 0, out_1_os := 2, out_1_bp := 1,
    out_2_os := 2, out_2_bp := 2, out_3_os := 2, out_3_bp := 3 }

/-- Two EX260 banks with separate bytes: bank 0 at offset 4 with the pins 1a,
2a and 4b set, every further bank at offset 5 with only 1b set. -/
def ex260_example : Nat → lcec_ex260_pin_t := fun i =>
  if i = 0 then
    { sol_1a := 1, sol_1b := 0, sol_2a := 1, sol_2b := 0, sol_3a := 0, sol_3b := 0,
      sol_4a := 0, sol_4b := 1, pdo_os := 4, pdo_bp := 0 }
  else
    { sol_1a := 0, sol_1b := 1, sol_2a := 0, sol_2b := 0, sol_3a := 0, sol_3b := 0,
      sol_4a := 0, sol_4b := 0, pdo_os := 5, pdo_bp := 0 }

/-- The zeroed channel record left by `memset` in `lcec_ax5200_init`. -/
def ax5_chan_zero : lcec_class_ax5_chan_t := { fb2_enabled := false, diag_enabled := false }

/-- A channel initialiser that succeeds: it enables the second feedback on
channel 0 only and the diagnostic number on channel 1 only. -/
def ax5_init_example (i : Nat) (chan : lcec_class_ax5_chan_t) : Int × lcec_class_ax5_chan_t :=
  (0, { chan with fb2_enabled := decide (i = 0), diag_enabled := decide (i = 1) })

/-- An AX5200 slave before bring-up: no callback, `hal_data` and `sync_info` are `NULL`. -/
def ax5200_slave_example : lcec_slave (Option lcec_ax5200_data_t) :=
  slave_example false 0 none

/-! ## Reading a sync descriptor -/

/-- The protocol entries `(index, subindex)` of a list of PDO groups, in the
order in which they were appended. -/
def pdo_entries (pdos : List ec_pdo_info_t) : List (Nat × Nat) :=
  pdos.flatMap fun p => p.entries.map fun e => (e.index, e.subindex)

/-- The protocol entries `(index, subindex)` of a whole sync descriptor, in the
order in which they were appended. -/
def sync_entries (syncs : List ec_sync_info_t) : List (Nat × Nat) :=
  syncs.flatMap fun s => pdo_entries s.pdos

/-- The PDO groups that `lcec_ax5200_init` opens for channel `c`: `0x0018`
(outputs) and `0x0010` (inputs) for channel 0, `0x1018` and `0x1010` for
channel 1. -/
def ax5200_chan_pdos (c : Nat) : List Nat := [0x0018 + 0x1000 * c, 0x0010 + 0x1000 * c]

/-- The protocol entries of a sync descriptor that were appended for channel
`c` of the AX5200, that is, to one of the PDO groups of that channel. -/
def ax5200_chan_entries (syncs : List ec_sync_info_t) (c : Nat) : List (Nat × Nat) :=
  syncs.flatMap fun s => pdo_entries (s.pdos.filter fun p => decide (p.index ∈ ax5200_chan_pdos c))

/-! ## Device bring-up: lcec_el95xx_init, lcec_el2904_init, lcec_ex260_init -/

/-- What a call of an init function did: the value it returned, the slave
after the call, the PDO entries `(index, subindex)` it registered with
`lcec_pdo_init` in call order, and the number of its calls of
`lcec_pin_newf_list`. -/
structure lcec_init_result (D : Type) where
  err : Int
  slave : lcec_slave (Option D)
  pdo_init : List (Nat × Nat)
  pin_newf_list : Nat

/-- The record `lcec_el95xx_data_t` after `memset(hal_data, 0, ...)`. -/
def lcec_el95xx_data_zero : lcec_el95xx_data_t :=
  { power_ok := 0, overload := 0, power_ok_pdo_os := 0, power_ok_pdo_bp := 0,
    overload_pdo_os := 0, overload_pdo_bp := 0 }

/-- The function `lcec_el95xx_init`. The parameter `hal_malloc_ok` tells whether
`hal_malloc` returned a non-`NULL` pointer, `lcec_pin_newf_list` is the value
returned by the call of that function (defined outside the sources). The
callback is installed first; a failed allocation returns `-EIO`; else the
record is zeroed and bound to `hal_data`, the two PDO entries are registered,
the pins are exported and the result of the export is returned. -/
def lcec_el95xx_init (hal_malloc_ok : Bool) (lcec_pin_newf_list : Int)
    (slave : lcec_slave (Option lcec_el95xx_data_t)) : lcec_init_result lcec_el95xx_data_t :=
  let slave := { slave with proc_read := some .lcec_el95xx_read }
  if !hal_malloc_ok then
    { err := - EIO, slave := slave, pdo_init := [], pin_newf_list := 0 }
  else
    let hal_data := lcec_el95xx_data_zero
    let slave := { slave with hal_data := some hal_data }
    let pdo_init := [(0x6000, 0x01), (0x6000, 0x02)]
    let err := lcec_pin_newf_list
    if err ≠ 0 then
      { err := err, slave := slave, pdo_init := pdo_init, pin_newf_list := 1 }
    else
      { err := 0, slave := slave, pdo_init := pdo_init, pin_newf_list := 1 }

/-- The record `lcec_el2904_data_t` after `memset(hal_data, 0, ...)`. -/
def lcec_el2904_data_zero : lcec_el2904_data_t :=
  { fsoe_master_cmd := 0, fsoe_master_crc := 0, fsoe_master_connid := 0,
    fsoe_slave_cmd := 0, fsoe_slave_crc := 0, fsoe_slave_connid := 0,
    fsoe_out_0 := 0, fsoe_out_1 := 0, fsoe_out_2 := 0, fsoe_out_3 := 0,
    out_0 := 0, out_1 := 0, out_2 := 0, out_3 := 0,
    fsoe_master_cmd_os := 0, fsoe_master_crc_os := 0, fsoe_master_connid_os := 0,
    fsoe_slave_cmd_os := 0, fsoe_slave_crc_os := 0, fsoe_slave_connid_os := 0,
    fsoe_out_0_os := 0, fsoe_out_0_bp := 0, fsoe_out_1_os := 0, fsoe_out_1_bp := 0,
    fsoe_out_2_os := 0, fsoe_out_2_bp := 0, fsoe_out_3_os := 0, fsoe_out_3_bp := 0,
    out_0_os := 0, out_0_bp := 0, out_1_os := 0, out_1_bp := 0,
    out_2_os := 0, out_2_bp := 0, out_3_os := 0, out_3_bp := 0 }

/-- The function `lcec_el2904_init`, with the parameters of `lcec_el95xx_init`:
both callbacks are installed first; a failed allocation returns `-EIO`; else
the record is zeroed and bound to `hal_data`, the fourteen PDO entries are
registered in source order, the pins are exported and the result of the export
is returned. -/
def lcec_el2904_init (hal_malloc_ok : Bool) (lcec_pin_newf_list : Int)
    (slave : lcec_slave (Option lcec_el2904_data_t)) : lcec_init_result lcec_el2904_data_t :=
  let slave := { slave with proc_read := some .lcec_el2904_read }
  let slave := { slave with proc_write := some .lcec_el2904_write }
  if !hal_malloc_ok then
    { err := - EIO, slave := slave, pdo_init := [], pin_newf_list := 0 }
  else
    let hal_data := lcec_el2904_data_zero
    let slave := { slave with hal_data := some hal_data }
    let pdo_init :=
      [(0x7000, 0x01), (0x7001, 0x01), (0x7001, 0x02), (0x7001, 0x03), (0x7001, 0x04),
       (0x7000, 0x02), (0x7000, 0x03), (0x7010, 0x01), (0x7010, 0x02), (0x7010, 0x03),
       (0x7010, 0x04), (0x6000, 0x01), (0x6000, 0x03), (0x6000, 0x04)]
    let err := lcec_pin_newf_list
    if err ≠ 0 then
      { err := err, slave := slave, pdo_init := pdo_init, pin_newf_list := 1 }
    else
      { err := 0, slave := slave, pdo_init := pdo_init, pin_newf_list := 1 }

/-- The record `lcec_ex260_pin_t` after `memset(hal_data, 0, ...)`. -/
def lcec_ex260_pin_zero : lcec_ex260_pin_t :=
  { sol_1a := 0, sol_1b := 0, sol_2a := 0, sol_2b := 0, sol_3a := 0, sol_3b := 0,
    sol_4a := 0, sol_4b := 0, pdo_os := 0, pdo_bp := 0 }

/-- The loop `for (i = 0, pin = hal_data; i < slave->flags; i++, pin++)` of
`lcec_ex260_init` over the bank indices still to visit: it registers the PDO
entry `(0x3101, 0x01 + i)`, exports the pins of bank `i` (the parameter
`lcec_pin_newf_list i` is the value returned by that call) and stops at the
first non-zero result. It yields the error code, the PDO entries registered so
far and the number of export calls so far. -/
def lcec_ex260_init_pins (lcec_pin_newf_list : Nat → Int) :
    List Nat → List (Nat × Nat) → Nat → Int × List (Nat × Nat) × Nat
  | [], pdo_init, calls => (0, pdo_init, calls)
  | i :: rest, pdo_init, calls =>
    let pdo_init := pdo_init ++ [(0x3101, 0x01 + i)]
    let err := lcec_pin_newf_list i
    let calls := calls + 1
    if err ≠ 0 then (err, pdo_init, calls)
    else lcec_ex260_init_pins lcec_pin_newf_list rest pdo_init calls

/-- The function `lcec_ex260_init`: the callback is installed first; a failed
allocation returns `-EIO`; else the array of `slave->flags` banks is zeroed and
bound to `hal_data`, and the banks are initialised in order, the first error
being returned. -/
def lcec_ex260_init (hal_malloc_ok : Bool) (lcec_pin_newf_list : Nat → Int)
    (slave : lcec_slave (Option (Nat → lcec_ex260_pin_t))) :
    lcec_init_result (Nat → lcec_ex260_pin_t) :=
  let slave := { slave with proc_write := some .lcec_ex260_write }
  if !hal_malloc_ok then
    { err := - EIO, slave := slave, pdo_init := [], pin_newf_list := 0 }
  else
    let hal_data : Nat → lcec_ex260_pin_t := fun _ => lcec_ex260_pin_zero
    let slave := { slave with hal_data := some hal_data }
    let r := lcec_ex260_init_pins lcec_pin_newf_list (List.range slave.flags) [] 0
    if r.1 ≠ 0 then
      { err := r.1, slave := slave, pdo_init := r.2.1, pin_newf_list := r.2.2 }
    else
      { err := 0, slave := slave, pdo_init := r.2.1, pin_newf_list := r.2.2 }

/-- An EL95xx slave before bring-up: no callback, `hal_data` is `NULL`. -/
def el95xx_slave_example : lcec_slave (Option lcec_el95xx_data_t) :=
  slave_example false 0 none

/-- An FSoE copy step that leaves the process image as it is, as for a slave
without FSoE partner. -/
def copy_fsoe_data_example (slave : lcec_slave lcec_el2904_data_t) (_slave_offset : Nat)
    (_master_offset : Nat) : ProcessData :=
  slave.process_data

/-! ## lcec_class_cia402.h: options, enabled features and channels -/

/-- The record `lcec_class_cia402_options_t`: the naming prefix and the option
switches, each C `int` used as a truth value being a `Bool`. -/
structure lcec_class_cia402_options_t where
  name_prefix : String
  enable_opmode : Bool
  enable_pp : Bool
  enable_pv : Bool
  enable_csp : Bool
  enable_csv : Bool
  enable_hm : Bool
  enable_ip : Bool
  enable_vl : Bool
  enable_tq : Bool
  enable_cst : Bool
  enable_actual_current : Bool
  enable_actual_following_error : Bool
  enable_actual_torque : Bool
  enable_actual_velocity_sensor : Bool
  enable_actual_vl : Bool
  enable_actual_voltage : Bool
  enable_demand_vl : Bool
  enable_digital_input : Bool
  enable_digital_output : Bool
  enable_following_error_timeout : Bool
  enable_following_error_window : Bool
  enable_home_accel : Bool
  enable_interpolation_time_period : Bool
  enable_maximum_acceleration : Bool
  enable_maximum_current : Bool
  enable_maximum_deceleration : Bool
  enable_maximum_motor_rpm : Bool
  enable_maximum_torque : Bool
  enable_motion_profile : Bool
  enable_motor_rated_current : Bool
  enable_motor_rated_torque : Bool
  enable_polarity : Bool
  enable_profile_accel : Bool
  enable_profile_decel : Bool
  enable_profile_end_velocity : Bool
  enable_profile_max_velocity : Bool
  enable_profile_velocity : Bool
  enable_target_torque : Bool
  enable_target_vl : Bool
  enable_torque_demand : Bool
  enable_torque_profile_type : Bool
  enable_torque_slope : Bool
  enable_velocity_demand : Bool
  enable_velocity_error_time : Bool
  enable_velocity_error_window : Bool
  enable_velocity_sensor_selector : Bool
  enable_velocity_threshold_time : Bool
  enable_velocity_threshold_window : Bool
  enable_vl_accel : Bool
  enable_vl_decel : Bool
  enable_vl_maximum : Bool
  enable_vl_minimum : Bool

/-- The record `lcec_class_cia402_enabled_t`: one switch per pin, or atomic set
of pins, of a channel. -/
structure lcec_class_cia402_enabled_t where
  enable_hm : Bool
  enable_actual_current : Bool
  enable_actual_following_error : Bool
  enable_actual_position : Bool
  enable_actual_torque : Bool
  enable_actual_velocity : Bool
  enable_actual_velocity_sensor : Bool
  enable_actual_vl : Bool
  enable_actual_voltage : Bool
  enable_demand_vl : Bool
  enable_digital_input : Bool
  enable_digital_output : Bool
  enable_following_error_timeout : Bool
  enable_following_error_window : Bool
  enable_home_accel : Bool
  enable_home_method : Bool
  enable_home_velocity_fast : Bool
  enable_home_velocity_slow : Bool
  enable_interpolation_time_period : Bool
  enable_maximum_acceleration : Bool
  enable_maximum_current : Bool
  enable_maximum_deceleration : Bool
  enable_maximum_motor_rpm : Bool
  enable_maximum_torque : Bool
  enable_motion_profile : Bool
  enable_motor_rated_current : Bool
  enable_motor_rated_torque : Bool
  enable_opmode : Bool
  enable_opmode_display : Bool
  enable_polarity : Bool
  enable_profile_accel : Bool
  enable_profile_decel : Bool
  enable_profile_end_velocity : Bool
  enable_profile_max_velocity : Bool
  enable_profile_velocity : Bool
  enable_target_position : Bool
  enable_target_torque : Bool
  enable_target_velocity : Bool
  enable_target_vl : Bool
  enable_torque_demand : Bool
  enable_torque_profile_type : Bool
  enable_torque_slope : Bool
  enable_velocity_demand : Bool
  enable_velocity_error_time : Bool
  enable_velocity_error_window : Bool
  enable_velocity_sensor_selector : Bool
  enable_velocity_threshold_time : Bool
  enable_velocity_threshold_window : Bool
  enable_vl_accel : Bool
  enable_vl_decel : Bool
  enable_vl_maximum : Bool
  enable_vl_minimum : Bool

/-- All `enable_*` fields of `lcec_class_cia402_options_t`, in the order of their
declaration. -/
def lcec_class_cia402_options_flags (opt : lcec_class_cia402_options_t) : List Bool :=
  [opt.enable_opmode, opt.enable_pp, opt.enable_pv, opt.enable_csp, opt.enable_csv, opt.enable_hm,
   opt.enable_ip, opt.enable_vl, opt.enable_tq, opt.enable_cst, opt.enable_actual_current,
   opt.enable_actual_following_error, opt.enable_actual_torque, opt.enable_actual_velocity_sensor,
   opt.enable_actual_vl, opt.enable_actual_voltage, opt.enable_demand_vl,
   opt.enable_digital_input, opt.enable_digital_output, opt.enable_following_error_timeout,
   opt.enable_following_error_window, opt.enable_home_accel, opt.enable_interpolation_time_period,
   opt.enable_maximum_acceleration, opt.enable_maximum_current, opt.enable_maximum_deceleration,
   opt.enable_maximum_motor_rpm, opt.enable_maximum_torque, opt.enable_motion_profile,
   opt.enable_motor_rated_current, opt.enable_motor_rated_torque, opt.enable_polarity,
   opt.enable_profile_accel, opt.enable_profile_decel, opt.enable_profile_end_velocity,
   opt.enable_profile_max_velocity, opt.enable_profile_velocity, opt.enable_target_torque,
   opt.enable_target_vl, opt.enable_torque_demand, opt.enable_torque_profile_type,
   opt.enable_torque_slope, opt.enable_velocity_demand, opt.enable_velocity_error_time,
   opt.enable_velocity_error_window, opt.enable_velocity_sensor_selector,
   opt.enable_velocity_threshold_time, opt.enable_velocity_threshold_window, opt.enable_vl_accel,
   opt.enable_vl_decel, opt.enable_vl_maximum, opt.enable_vl_minimum]

/-- All `enable_*` fields of `lcec_class_cia402_enabled_t`, in the order of their
declaration. -/
def lcec_class_cia402_enabled_flags (enabled : lcec_class_cia402_enabled_t) : List Bool :=
  [enabled.enable_hm, enabled.enable_actual_current, enabled.enable_actual_following_error,
   enabled.enable_actual_position, enabled.enable_actual_torque, enabled.enable_actual_velocity,
   enabled.enable_actual_velocity_sensor, enabled.enable_actual_vl, enabled.enable_actual_voltage,
   enabled.enable_demand_vl, enabled.enable_digital_input, enabled.enable_digital_output,
   enabled.enable_following_error_timeout, enabled.enable_following_error_window,
   enabled.enable_home_accel, enabled.enable_home_method, enabled.enable_home_velocity_fast,
   enabled.enable_home_velocity_slow, enabled.enable_interpolation_time_period,
   enabled.enable_maximum_acceleration, enabled.enable_maximum_current,
   enabled.enable_maximum_deceleration, enabled.enable_maximum_motor_rpm,
   enabled.enable_maximum_torque, enabled.enable_motion_profile,
   enabled.enable_motor_rated_current, enabled.enable_motor_rated_torque, enabled.enable_opmode,
   enabled.enable_opmode_display, enabled.enable_polarity, enabled.enable_profile_accel,
   enabled.enable_profile_decel, enabled.enable_profile_end_velocity,
   enabled.enable_profile_max_velocity, enabled.enable_profile_velocity,
   enabled.enable_target_position, enabled.enable_target_torque, enabled.enable_target_velocity,
   enabled.enable_target_vl, enabled.enable_torque_demand, enabled.enable_torque_profile_type,
   enabled.enable_torque_slope, enabled.enable_velocity_demand,
   enabled.enable_velocity_error_time, enabled.enable_velocity_error_window,
   enabled.enable_velocity_sensor_selector, enabled.enable_velocity_threshold_time,
   enabled.enable_velocity_threshold_window, enabled.enable_vl_accel, enabled.enable_vl_decel,
   enabled.enable_vl_maximum, enabled.enable_vl_minimum]

/-- The flags that an enabled `csp` or `csv` mode turns on beyond the pins its
comment in the header names ("plus others"): the header and the spec do not
list them, so they are the parameters `csp_others` and `csv_others`; flag `f`
is turned on when `enable_csp` is set and `csp_others` has it, or when
`enable_csv` is set and `csv_others` has it. -/
def lcec_cia402_mode_others (csp_others csv_others : lcec_class_cia402_enabled_t)
    (opt : lcec_class_cia402_options_t) (f : lcec_class_cia402_enabled_t → Bool) : Bool :=
  (opt.enable_csp && f csp_others) || (opt.enable_csv && f csv_others)

/-- Modelled from the spec: the body of `lcec_cia402_enabled`, which builds
`lcec_class_cia402_enabled_t` from `lcec_class_cia402_options_t`, is not among
the sources (the header only names it). A field is enabled when it is
requested or required by an enabled mode. The mode table follows the spec and
the comments of the option fields in the header: `enable_opmode` enables opmode
and opmode-display; `enable_pp` enables target-position, actual-position,
profile-velocity, profile-accel and profile-decel; `enable_pv` enables
actual-velocity and target-velocity; `enable_csp` enables actual-position and
target-position "plus others", `enable_csv` actual-velocity and target-velocity
"plus others" (see `lcec_cia402_mode_others`); `enable_hm` enables homing and
its pins home-method and home-velocity-fast/slow. By the scenario of the spec,
actual-torque is not among the pins that `csp` requires. -/
def lcec_cia402_enabled (csp_others csv_others : lcec_class_cia402_enabled_t)
    (opt : lcec_class_cia402_options_t) : lcec_class_cia402_enabled_t :=
  { enable_hm :=
      opt.enable_hm ||
      lcec_cia402_mode_others csp_others csv_others opt fun others => others.enable_hm,
    enable_actual_current :=
      opt.enable_actual_current ||
      lcec_cia402_mode_others csp_others csv_others opt fun others => others.enable_actual_current,
    enable_actual_following_error :=
      opt.enable_actual_following_error ||
      lcec_cia402_mode_others csp_others csv_others opt fun others => others.enable_actual_following_error,
    enable_actual_position :=
      opt.enable_pp || opt.enable_csp ||
      lcec_cia402_mode_others csp_others csv_others opt fun others => others.enable_actual_position,
    enable_actual_torque :=
      opt.enable_actual_torque || (opt.enable_csv && csv_others.enable_actual_torque),
    enable_actual_velocity :=
      opt.enable_pv || opt.enable_csv ||
      lcec_cia402_mode_others csp_others csv_others opt fun others => others.enable_actual_velocity,
    enable_actual_velocity_sensor :=
      opt.enable_actual_velocity_sensor ||
      lcec_cia402_mode_others csp_others csv_others opt fun others => others.enable_actual_velocity_sensor,
    enable_actual_vl :=
      opt.enable_actual_vl ||
      lcec_cia402_mode_others csp_others csv_others opt fun others => others.enable_actual_vl,
    enable_actual_voltage :=
      opt.enable_actual_voltage ||
      lcec_cia402_mode_others csp_others csv_others opt fun others => others.enable_actual_voltage,
    enable_demand_vl :=
      opt.enable_demand_vl ||
      lcec_cia402_mode_others csp_others csv_others opt fun others => others.enable_demand_vl,
    enable_digital_input :=
      opt.enable_digital_input ||
      lcec_cia402_mode_others csp_others csv_others opt fun others => others.enable_digital_input,
    enable_digital_output :=
      opt.enable_digital_output ||
      lcec_cia402_mode_others csp_others csv_others opt fun others => others.enable_digital_output,
    enable_following_error_timeout :=
      opt.enable_following_error_timeout ||
      lcec_cia402_mode_others csp_others csv_others opt fun others => others.enable_following_error_timeout,
    enable_following_error_window :=
      opt.enable_following_error_window ||
      lcec_cia402_mode_others csp_others csv_others opt fun others => others.enable_following_error_window,
    enable_home_accel :=
      opt.enable_home_accel ||
      lcec_cia402_mode_others csp_others csv_others opt fun others => others.enable_home_accel,
    enable_home_method :=
      opt.enable_hm ||
      lcec_cia402_mode_others csp_others csv_others opt fun others => others.enable_home_method,
    enable_home_velocity_fast :=
      opt.enable_hm ||
      lcec_cia402_mode_others csp_others csv_others opt fun others => others.enable_home_velocity_fast,
    enable_home_velocity_slow :=
      opt.enable_hm ||
      lcec_cia402_mode_others csp_others csv_others opt fun others => others.enable_home_velocity_slow,
    enable_interpolation_time_period :=
      opt.enable_interpolation_time_period ||
      lcec_cia402_mode_others csp_others csv_others opt fun others => others.enable_interpolation_time_period,
    enable_maximum_acceleration :=
      opt.enable_maximum_acceleration ||
      lcec_cia402_mode_others csp_others csv_others opt fun others => others.enable_maximum_acceleration,
    enable_maximum_current :=
      opt.enable_maximum_current ||
      lcec_cia402_mode_others csp_others csv_others opt fun others => others.enable_maximum_current,
    enable_maximum_deceleration :=
      opt.enable_maximum_deceleration ||
      lcec_cia402_mode_others csp_others csv_others opt fun others => others.enable_maximum_deceleration,
    enable_maximum_motor_rpm :=
      opt.enable_maximum_motor_rpm ||
      lcec_cia402_mode_others csp_others csv_others opt fun others => others.enable_maximum_motor_rpm,
    enable_maximum_torque :=
      opt.enable_maximum_torque ||
      lcec_cia402_mode_others csp_others csv_others opt fun others => others.enable_maximum_torque,
    enable_motion_profile :=
      opt.enable_motion_profile ||
      lcec_cia402_mode_others csp_others csv_others opt fun others => others.enable_motion_profile,
    enable_motor_rated_current :=
      opt.enable_motor_rated_current ||
      lcec_cia402_mode_others csp_others csv_others opt fun others => others.enable_motor_rated_current,
    enable_motor_rated_torque :=
      opt.enable_motor_rated_torque ||
      lcec_cia402_mode_others csp_others csv_others opt fun others => others.enable_motor_rated_torque,
    enable_opmode :=
      opt.enable_opmode ||
      lcec_cia402_mode_others csp_others csv_others opt fun others => others.enable_opmode,
    enable_opmode_display :=
      opt.enable_opmode ||
      lcec_cia402_mode_others csp_others csv_others opt fun others => others.enable_opmode_display,
    enable_polarity :=
      opt.enable_polarity ||
      lcec_cia402_mode_others csp_others csv_others opt fun others => others.enable_polarity,
    enable_profile_accel :=
      opt.enable_profile_accel || opt.enable_pp ||
      lcec_cia402_mode_others csp_others csv_others opt fun others => others.enable_profile_accel,
    enable_profile_decel :=
      opt.enable_profile_decel || opt.enable_pp ||
      lcec_cia402_mode_others csp_others csv_others opt fun others => others.enable_profile_decel,
    enable_profile_end_velocity :=
      opt.enable_profile_end_velocity ||
      lcec_cia402_mode_others csp_others csv_others opt fun others => others.enable_profile_end_velocity,
    enable_profile_max_velocity :=
      opt.enable_profile_max_velocity ||
      lcec_cia402_mode_others csp_others csv_others opt fun others => others.enable_profile_max_velocity,
    enable_profile_velocity :=
      opt.enable_profile_velocity || opt.enable_pp ||
      lcec_cia402_mode_others csp_others csv_others opt fun others => others.enable_profile_velocity,
    enable_target_position :=
      opt.enable_pp || opt.enable_csp ||
      lcec_cia402_mode_others csp_others csv_others opt fun others => others.enable_target_position,
    enable_target_torque :=
      opt.enable_target_torque ||
      lcec_cia402_mode_others csp_others csv_others opt fun others => others.enable_target_torque,
    enable_target_velocity :=
      opt.enable_pv || opt.enable_csv ||
      lcec_cia402_mode_others csp_others csv_others opt fun others => others.enable_target_velocity,
    enable_target_vl :=
      opt.enable_target_vl ||
      lcec_cia402_mode_others csp_others csv_others opt fun others => others.enable_target_vl,
    enable_torque_demand :=
      opt.enable_torque_demand ||
      lcec_cia402_mode_others csp_others csv_others opt fun others => others.enable_torque_demand,
    enable_torque_profile_type :=
      opt.enable_torque_profile_type ||
      lcec_cia402_mode_others csp_others csv_others opt fun others => others.enable_torque_profile_type,
    enable_torque_slope :=
      opt.enable_torque_slope ||
      lcec_cia402_mode_others csp_others csv_others opt fun others => others.enable_torque_slope,
    enable_velocity_demand :=
      opt.enable_velocity_demand ||
      lcec_cia402_mode_others csp_others csv_others opt fun others => others.enable_velocity_demand,
    enable_velocity_error_time :=
      opt.enable_velocity_error_time ||
      lcec_cia402_mode_others csp_others csv_others opt fun others => others.enable_velocity_error_time,
    enable_velocity_error_window :=
      opt.enable_velocity_error_window ||
      lcec_cia402_mode_others csp_others csv_others opt fun others => others.enable_velocity_error_window,
    enable_velocity_sensor_selector :=
      opt.enable_velocity_sensor_selector ||
      lcec_cia402_mode_others csp_others csv_others opt fun others => others.enable_velocity_sensor_selector,
    enable_velocity_threshold_time :=
      opt.enable_velocity_threshold_time ||
      lcec_cia402_mode_others csp_others csv_others opt fun others => others.enable_velocity_threshold_time,
    enable_velocity_threshold_window :=
      opt.enable_velocity_threshold_window ||
      lcec_cia402_mode_others csp_others csv_others opt fun others => others.enable_velocity_threshold_window,
    enable_vl_accel :=
      opt.enable_vl_accel ||
      lcec_cia402_mode_others csp_others csv_others opt fun others => others.enable_vl_accel,
    enable_vl_decel :=
      opt.enable_vl_decel ||
      lcec_cia402_mode_others csp_others csv_others opt fun others => others.enable_vl_decel,
    enable_vl_maximum :=
      opt.enable_vl_maximum ||
      lcec_cia402_mode_others csp_others csv_others opt fun others => others.enable_vl_maximum,
    enable_vl_minimum :=
      opt.enable_vl_minimum ||
      lcec_cia402_mode_others csp_others csv_others opt fun others => others.enable_vl_minimum }

/-- The pin fields of `lcec_class_cia402_channel_t`, in the order of their
declaration. -/
inductive lcec_cia402_pin where
  | controlword
  | opmode
  | home_method
  | motion_profile
  | target_position
  | target_torque
  | target_velocity
  | target_vl
  | torque_profile_type
  | velocity_sensor_selector
  | vl_maximum
  | vl_minimum
  | following_error_timeout
  | following_error_window
  | home_accel
  | home_velocity_fast
  | home_velocity_slow
  | interpolation_time_period
  | maximum_acceleration
  | maximum_current
  | maximum_deceleration
  | maximum_motor_rpm
  | maximum_torque
  | motor_rated_current
  | motor_rated_torque
  | polarity
  | profile_accel
  | profile_decel
  | profile_end_velocity
  | profile_max_velocity
  | profile_velocity
  | torque_slope
  | velocity_error_time
  | velocity_error_window
  | velocity_threshold_time
  | velocity_threshold_window
  | vl_accel
  | vl_decel
  | statusword
  | opmode_display
  | supported_modes
  | supports_mode_pp
  | supports_mode_vl
  | supports_mode_pv
  | supports_mode_tq
  | supports_mode_hm
  | supports_mode_ip
  | supports_mode_csp
  | supports_mode_csv
  | supports_mode_cst
  | actual_current
  | actual_position
  | actual_torque
  | actual_velocity
  | actual_velocity_sensor
  | actual_vl
  | demand_vl
  | torque_demand
  | velocity_demand
  | actual_following_error
  | actual_voltage
deriving DecidableEq, Repr

/-- All pin fields of `lcec_class_cia402_channel_t`. -/
def lcec_cia402_pins : List lcec_cia402_pin :=
  [.controlword, .opmode, .home_method, .motion_profile, .target_position, .target_torque,
   .target_velocity, .target_vl, .torque_profile_type, .velocity_sensor_selector, .vl_maximum,
   .vl_minimum, .following_error_timeout, .following_error_window, .home_accel,
   .home_velocity_fast, .home_velocity_slow, .interpolation_time_period, .maximum_acceleration,
   .maximum_current, .maximum_deceleration, .maximum_motor_rpm, .maximum_torque,
   .motor_rated_current, .motor_rated_torque, .polarity, .profile_accel, .profile_decel,
   .profile_end_velocity, .profile_max_velocity, .profile_velocity, .torque_slope,
   .velocity_error_time, .velocity_error_window, .velocity_threshold_time,
   .velocity_threshold_window, .vl_accel, .vl_decel, .statusword, .opmode_display,
   .supported_modes, .supports_mode_pp, .supports_mode_vl, .supports_mode_pv, .supports_mode_tq,
   .supports_mode_hm, .supports_mode_ip, .supports_mode_csp, .supports_mode_csv,
   .supports_mode_cst, .actual_current, .actual_position, .actual_torque, .actual_velocity,
   .actual_velocity_sensor, .actual_vl, .demand_vl, .torque_demand, .velocity_demand,
   .actual_following_error, .actual_voltage]

/-- The enable flag of `lcec_class_cia402_enabled_t` that bears the name of a pin
field of the channel; `none` for the pins without such a flag (controlword,
statusword, supported-modes and the `supports_mode_*` bits). -/
def lcec_cia402_pin_enable : lcec_cia402_pin → Option (lcec_class_cia402_enabled_t → Bool)
  | .controlword => none
  | .opmode => some fun enabled => enabled.enable_opmode
  | .home_method => some fun enabled => enabled.enable_home_method
  | .motion_profile => some fun enabled => enabled.enable_motion_profile
  | .target_position => some fun enabled => enabled.enable_target_position
  | .target_torque => some fun enabled => enabled.enable_target_torque
  | .target_velocity => some fun enabled => enabled.enable_target_velocity
  | .target_vl => some fun enabled => enabled.enable_target_vl
  | .torque_profile_type => some fun enabled => enabled.enable_torque_profile_type
  | .velocity_sensor_selector => some fun enabled => enabled.enable_velocity_sensor_selector
  | .vl_maximum => some fun enabled => enabled.enable_vl_maximum
  | .vl_minimum => some fun enabled => enabled.enable_vl_minimum
  | .following_error_timeout => some fun enabled => enabled.enable_following_error_timeout
  | .following_error_window => some fun enabled => enabled.enable_following_error_window
  | .home_accel => some fun enabled => enabled.enable_home_accel
  | .home_velocity_fast => some fun enabled => enabled.enable_home_velocity_fast
  | .home_velocity_slow => some fun enabled => enabled.enable_home_velocity_slow
  | .interpolation_time_period => some fun enabled => enabled.enable_interpolation_time_period
  | .maximum_acceleration => some fun enabled => enabled.enable_maximum_acceleration
  | .maximum_current => some fun enabled => enabled.enable_maximum_current
  | .maximum_deceleration => some fun enabled => enabled.enable_maximum_deceleration
  | .maximum_motor_rpm => some fun enabled => enabled.enable_maximum_motor_rpm
  | .maximum_torque => some fun enabled => enabled.enable_maximum_torque
  | .motor_rated_current => some fun enabled => enabled.enable_motor_rated_current
  | .motor_rated_torque => some fun enabled => enabled.enable_motor_rated_torque
  | .polarity => some fun enabled => enabled.enable_polarity
  | .profile_accel => some fun enabled => enabled.enable_profile_accel
  | .profile_decel => some fun enabled => enabled.enable_profile_decel
  | .profile_end_velocity => some fun enabled => enabled.enable_profile_end_velocity
  | .profile_max_velocity => some fun enabled => enabled.enable_profile_max_velocity
  | .profile_velocity => some fun enabled => enabled.enable_profile_velocity
  | .torque_slope => some fun enabled => enabled.enable_torque_slope
  | .velocity_error_time => some fun enabled => enabled.enable_velocity_error_time
  | .velocity_error_window => some fun enabled => enabled.enable_velocity_error_window
  | .velocity_threshold_time => some fun enabled => enabled.enable_velocity_threshold_time
  | .velocity_threshold_window => some fun enabled => enabled.enable_velocity_threshold_window
  | .vl_accel => some fun enabled => enabled.enable_vl_accel
  | .vl_decel => some fun enabled => enabled.enable_vl_decel
  | .statusword => none
  | .opmode_display => some fun enabled => enabled.enable_opmode_display
  | .supported_modes => none
  | .supports_mode_pp => none
  | .supports_mode_vl => none
  | .supports_mode_pv => none
  | .supports_mode_tq => none
  | .supports_mode_hm => none
  | .supports_mode_ip => none
  | .supports_mode_csp => none
  | .supports_mode_csv => none
  | .supports_mode_cst => none
  | .actual_current => some fun enabled => enabled.enable_actual_current
  | .actual_position => some fun enabled => enabled.enable_actual_position
  | .actual_torque => some fun enabled => enabled.enable_actual_torque
  | .actual_velocity => some fun enabled => enabled.enable_actual_velocity
  | .actual_velocity_sensor => some fun enabled => enabled.enable_actual_velocity_sensor
  | .actual_vl => some fun enabled => enabled.enable_actual_vl
  | .demand_vl => some fun enabled => enabled.enable_demand_vl
  | .torque_demand => some fun enabled => enabled.enable_torque_demand
  | .velocity_demand => some fun enabled => enabled.enable_velocity_demand
  | .actual_following_error => some fun enabled => enabled.enable_actual_following_error
  | .actual_voltage => some fun enabled => enabled.enable_actual_voltage
/-- The record `lcec_class_cia402_channel_t`: for each pin field the pin handle
(`none` for `NULL`) and the resolved offset of the `_os` field (`none` where
nothing was resolved), the options used to create the channel and the enabled
features. -/
structure lcec_class_cia402_channel_t where
  pin : lcec_cia402_pin → Option Nat
  os : lcec_cia402_pin → Option Nat
  options : lcec_class_cia402_options_t
  enabled : lcec_class_cia402_enabled_t

/-- Whether a pin field has an `_os` field in `lcec_class_cia402_channel_t`: all
but the nine `supports_mode_*` bits, which are derived from supported-modes. -/
def lcec_cia402_pin_has_os : lcec_cia402_pin → Bool
  | .supports_mode_pp => false
  | .supports_mode_vl => false
  | .supports_mode_pv => false
  | .supports_mode_tq => false
  | .supports_mode_hm => false
  | .supports_mode_ip => false
  | .supports_mode_csp => false
  | .supports_mode_csv => false
  | .supports_mode_cst => false
  | _ => true

/-- Whether a pin field is to be bound under the given enabled features: the
value of its enable flag, and always for a pin without enable flag. -/
def lcec_cia402_pin_wanted (enabled : lcec_class_cia402_enabled_t) (F : lcec_cia402_pin) :
    Bool :=
  match lcec_cia402_pin_enable F with
  | none => true
  | some flag => flag enabled

/-- Modelled from the spec: the body of `lcec_cia402_register_channel` is not
among the sources (the header only declares it). It resolves the enabled
features of the option set; for every enabled field it stores the resolved
offset and binds the typed pin handle, for every disabled field it leaves both
absent; a failed handle allocation aborts the registration and no channel is
returned. The parameter `hal_pin_new` gives the handle allocated for a pin
(`none` when the allocation fails), `lcec_pdo_init` the offset resolved for it;
`csp_others` and `csv_others` are those of `lcec_cia402_enabled`. -/
def lcec_cia402_register_channel (hal_pin_new : lcec_cia402_pin → Option Nat)
    (lcec_pdo_init : lcec_cia402_pin → Nat)
    (csp_others csv_others : lcec_class_cia402_enabled_t)
    (opt : lcec_class_cia402_options_t) :
    Option lcec_class_cia402_channel_t :=
  let enabled := lcec_cia402_enabled csp_others csv_others opt
  if lcec_cia402_pins.all fun F => !lcec_cia402_pin_wanted enabled F || (hal_pin_new F).isSome
  then
    some
      { pin := fun F => if lcec_cia402_pin_wanted enabled F then hal_pin_new F else none,
        os := fun F =>
          if lcec_cia402_pin_wanted enabled F && lcec_cia402_pin_has_os F then
            some (lcec_pdo_init F)
          else none,
        options := opt,
        enabled := enabled }
  else none

/-- The option set with every switch off and the default prefix. -/
def cia402_options_none : lcec_class_cia402_options_t :=
  { name_prefix := "srv", enable_opmode := false, enable_pp := false, enable_pv := false,
    enable_csp := false, enable_csv := false, enable_hm := false, enable_ip := false,
    enable_vl := false, enable_tq := false, enable_cst := false, enable_actual_current := false,
    enable_actual_following_error := false, enable_actual_torque := false,
    enable_actual_velocity_sensor := false, enable_actual_vl := false,
    enable_actual_voltage := false, enable_demand_vl := false, enable_digital_input := false,
    enable_digital_output := false, enable_following_error_timeout := false,
    enable_following_error_window := false, enable_home_accel := false,
    enable_interpolation_time_period := false, enable_maximum_acceleration := false,
    enable_maximum_current := false, enable_maximum_deceleration := false,
    enable_maximum_motor_rpm := false, enable_maximum_torque := false,
    enable_motion_profile := false, enable_motor_rated_current := false,
    enable_motor_rated_torque := false, enable_polarity := false, enable_profile_accel := false,
    enable_profile_decel := false, enable_profile_end_velocity := false,
    enable_profile_max_velocity := false, enable_profile_velocity := false,
    enable_target_torque := false, enable_target_vl := false, enable_torque_demand := false,
    enable_torque_profile_type := false, enable_torque_slope := false,
    enable_velocity_demand := false, enable_velocity_error_time := false,
    enable_velocity_error_window := false, enable_velocity_sensor_selector := false,
    enable_velocity_threshold_time := false, enable_velocity_threshold_window := false,
    enable_vl_accel := false, enable_vl_decel := false, enable_vl_maximum := false,
    enable_vl_minimum := false }

/-- The option set of the scenario: `enable_csp` on, `enable_actual_torque` off,
like every other switch. -/
def cia402_options_example : lcec_class_cia402_options_t :=
  { cia402_options_none with enable_csp := true, enable_actual_torque := false }

/-- A handle allocation that always succeeds: pin fields get distinct handles. -/
def hal_pin_new_example (F : lcec_cia402_pin) : Option Nat :=
  some (0x1000 + 8 * (lcec_cia402_pins.indexOf F))

/-- The enabled set with every flag off. -/
def cia402_enabled_none : lcec_class_cia402_enabled_t :=
  { enable_hm := false, enable_actual_current := false, enable_actual_following_error := false,
    enable_actual_position := false, enable_actual_torque := false,
    enable_actual_velocity := false, enable_actual_velocity_sensor := false,
    enable_actual_vl := false, enable_actual_voltage := false, enable_demand_vl := false,
    enable_digital_input := false, enable_digital_output := false,
    enable_following_error_timeout := false, enable_following_error_window := false,
    enable_home_accel := false, enable_home_method := false, enable_home_velocity_fast := false,
    enable_home_velocity_slow := false, enable_interpolation_time_period := false,
    enable_maximum_acceleration := false, enable_maximum_current := false,
    enable_maximum_deceleration := false, enable_maximum_motor_rpm := false,
    enable_maximum_torque := false, enable_motion_profile := false,
    enable_motor_rated_current := false, enable_motor_rated_torque := false,
    enable_opmode := false, enable_opmode_display := false, enable_polarity := false,
    enable_profile_accel := false, enable_profile_decel := false,
    enable_profile_end_velocity := false, enable_profile_max_velocity := false,
    enable_profile_velocity := false, enable_target_position := false,
    enable_target_torque := false, enable_target_velocity := false, enable_target_vl := false,
    enable_torque_demand := false, enable_torque_profile_type := false,
    enable_torque_slope := false, enable_velocity_demand := false,
    enable_velocity_error_time := false, enable_velocity_error_window := false,
    enable_velocity_sensor_selector := false, enable_velocity_threshold_time := false,
    enable_velocity_threshold_window := false, enable_vl_accel := false, enable_vl_decel := false,
    enable_vl_maximum := false, enable_vl_minimum := false }

/-! ## Inputs for the last claims -/

/-- The banks of `ex260_example` with other bit positions: every `pdo_bp` is 3. -/
def ex260_example_bp : Nat → lcec_ex260_pin_t := fun i =>
  { ex260_example i with pdo_bp := 3 }

/-- A slave record like `slave_example true 2 hal_data`, around the all-zero
process image instead of `pd_example`. -/
def slave_example_zero {H : Type} (hal_data : H) : lcec_slave H :=
  { slave_example true 2 hal_data with process_data := fun _ => 0 }

/-- The static `fsoe_conf` of `lcec_ax5200.c`. -/
def lcec_ax5200_fsoe_conf : LCEC_CONF_FSOE_T :=
  { slave_data_len := 2, master_data_len := 2, data_channels := 2 }

/-- The function `lcec_ax5200_preinit`, returning its return value and the
slave after the call: if `slave->fsoeConf` is not `NULL` it returns 0 at once,
else it sets `slave->fsoeConf` to `&fsoe_conf` and returns 0. -/
def lcec_ax5200_preinit {H : Type} (slave : lcec_slave H) : Int × lcec_slave H :=
  if slave.fsoeConf ≠ none then (0, slave)
  else
    let slave := { slave with fsoeConf := some lcec_ax5200_fsoe_conf }
    (0, slave)

/-! ## The field names of the option and enabled records -/

/-- The `enable_*` fields of `lcec_class_cia402_options_t` in the order of their
declaration, each with its name in the header. -/
def lcec_class_cia402_options_fields :
    List (String × (lcec_class_cia402_options_t → Bool)) :=
  [("enable_opmode", fun opt => opt.enable_opmode),
   ("enable_pp", fun opt => opt.enable_pp),
   ("enable_pv", fun opt => opt.enable_pv),
   ("enable_csp", fun opt => opt.enable_csp),
   ("enable_csv", fun opt => opt.enable_csv),
   ("enable_hm", fun opt => opt.enable_hm),
   ("enable_ip", fun opt => opt.enable_ip),
   ("enable_vl", fun opt => opt.enable_vl),
   ("enable_tq", fun opt => opt.enable_tq),
   ("enable_cst", fun opt => opt.enable_cst),
   ("enable_actual_current", fun opt => opt.enable_actual_current),
   ("enable_actual_following_error", fun opt => opt.enable_actual_following_error),
   ("enable_actual_torque", fun opt => opt.enable_actual_torque),
   ("enable_actual_velocity_sensor", fun opt => opt.enable_actual_velocity_sensor),
   ("enable_actual_vl", fun opt => opt.enable_actual_vl),
   ("enable_actual_voltage", fun opt => opt.enable_actual_voltage),
   ("enable_demand_vl", fun opt => opt.enable_demand_vl),
   ("enable_digital_input", fun opt => opt.enable_digital_input),
   ("enable_digital_output", fun opt => opt.enable_digital_output),
   ("enable_following_error_timeout", fun opt => opt.enable_following_error_timeout),
   ("enable_following_error_window", fun opt => opt.enable_following_error_window),
   ("enable_home_accel", fun opt => opt.enable_home_accel),
   ("enable_interpolation_time_period", fun opt => opt.enable_interpolation_time_period),
   ("enable_maximum_acceleration", fun opt => opt.enable_maximum_acceleration),
   ("enable_maximum_current", fun opt => opt.enable_maximum_current),
   ("enable_maximum_deceleration", fun opt => opt.enable_maximum_deceleration),
   ("enable_maximum_motor_rpm", fun opt => opt.enable_maximum_motor_rpm),
   ("enable_maximum_torque", fun opt => opt.enable_maximum_torque),
   ("enable_motion_profile", fun opt => opt.enable_motion_profile),
   ("enable_motor_rated_current", fun opt => opt.enable_motor_rated_current),
   ("enable_motor_rated_torque", fun opt => opt.enable_motor_rated_torque),
   ("enable_polarity", fun opt => opt.enable_polarity),
   ("enable_profile_accel", fun opt => opt.enable_profile_accel),
   ("enable_profile_decel", fun opt => opt.enable_profile_decel),
   ("enable_profile_end_velocity", fun opt => opt.enable_profile_end_velocity),
   ("enable_profile_max_velocity", fun opt => opt.enable_profile_max_velocity),
   ("enable_profile_velocity", fun opt => opt.enable_profile_velocity),
   ("enable_target_torque", fun opt => opt.enable_target_torque),
   ("enable_target_vl", fun opt => opt.enable_target_vl),
   ("enable_torque_demand", fun opt => opt.enable_torque_demand),
   ("enable_torque_profile_type", fun opt => opt.enable_torque_profile_type),
   ("enable_torque_slope", fun opt => opt.enable_torque_slope),
   ("enable_velocity_demand", fun opt => opt.enable_velocity_demand),
   ("enable_velocity_error_time", fun opt => opt.enable_velocity_error_time),
   ("enable_velocity_error_window", fun opt => opt.enable_velocity_error_window),
   ("enable_velocity_sensor_selector", fun opt => opt.enable_velocity_sensor_selector),
   ("enable_velocity_threshold_time", fun opt => opt.enable_velocity_threshold_time),
   ("enable_velocity_threshold_window", fun opt => opt.enable_velocity_threshold_window),
   ("enable_vl_accel", fun opt => opt.enable_vl_accel),
   ("enable_vl_decel", fun opt => opt.enable_vl_decel),
   ("enable_vl_maximum", fun opt => opt.enable_vl_maximum),
   ("enable_vl_minimum", fun opt => opt.enable_vl_minimum)]

/-- The `enable_*` fields of `lcec_class_cia402_enabled_t` in the order of their
declaration, each with its name in the header. -/
def lcec_class_cia402_enabled_fields :
    List (String × (lcec_class_cia402_enabled_t → Bool)) :=
  [("enable_hm", fun enabled => enabled.enable_hm),
   ("enable_actual_current", fun enabled => enabled.enable_actual_current),
   ("enable_actual_following_error", fun enabled => enabled.enable_actual_following_error),
   ("enable_actual_position", fun enabled => enabled.enable_actual_position),
   ("enable_actual_torque", fun enabled => enabled.enable_actual_torque),
   ("enable_actual_velocity", fun enabled => enabled.enable_actual_velocity),
   ("enable_actual_velocity_sensor", fun enabled => enabled.enable_actual_velocity_sensor),
   ("enable_actual_vl", fun enabled => enabled.enable_actual_vl),
   ("enable_actual_voltage", fun enabled => enabled.enable_actual_voltage),
   ("enable_demand_vl", fun enabled => enabled.enable_demand_vl),
   ("enable_digital_input", fun enabled => enabled.enable_digital_input),
   ("enable_digital_output", fun enabled => enabled.enable_digital_output),
   ("enable_following_error_timeout", fun enabled => enabled.enable_following_error_timeout),
   ("enable_following_error_window", fun enabled => enabled.enable_following_error_window),
   ("enable_home_accel", fun enabled => enabled.enable_home_accel),
   ("enable_home_method", fun enabled => enabled.enable_home_method),
   ("enable_home_velocity_fast", fun enabled => enabled.enable_home_velocity_fast),
   ("enable_home_velocity_slow", fun enabled => enabled.enable_home_velocity_slow),
   ("enable_interpolation_time_period", fun enabled => enabled.enable_interpolation_time_period),
   ("enable_maximum_acceleration", fun enabled => enabled.enable_maximum_acceleration),
   ("enable_maximum_current", fun enabled => enabled.enable_maximum_current),
   ("enable_maximum_deceleration", fun enabled => enabled.enable_maximum_deceleration),
   ("enable_maximum_motor_rpm", fun enabled => enabled.enable_maximum_motor_rpm),
   ("enable_maximum_torque", fun enabled => enabled.enable_maximum_torque),
   ("enable_motion_profile", fun enabled => enabled.enable_motion_profile),
   ("enable_motor_rated_current", fun enabled => enabled.enable_motor_rated_current),
   ("enable_motor_rated_torque", fun enabled => enabled.enable_motor_rated_torque),
   ("enable_opmode", fun enabled => enabled.enable_opmode),
   ("enable_opmode_display", fun enabled => enabled.enable_opmode_display),
   ("enable_polarity", fun enabled => enabled.enable_polarity),
   ("enable_profile_accel", fun enabled => enabled.enable_profile_accel),
   ("enable_profile_decel", fun enabled => enabled.enable_profile_decel),
   ("enable_profile_end_velocity", fun enabled => enabled.enable_profile_end_velocity),
   ("enable_profile_max_velocity", fun enabled => enabled.enable_profile_max_velocity),
   ("enable_profile_velocity", fun enabled => enabled.enable_profile_velocity),
   ("enable_target_position", fun enabled => enabled.enable_target_position),
   ("enable_target_torque", fun enabled => enabled.enable_target_torque),
   ("enable_target_velocity", fun enabled => enabled.enable_target_velocity),
   ("enable_target_vl", fun enabled => enabled.enable_target_vl),
   ("enable_torque_demand", fun enabled => enabled.enable_torque_demand),
   ("enable_torque_profile_type", fun enabled => enabled.enable_torque_profile_type),
   ("enable_torque_slope", fun enabled => enabled.enable_torque_slope),
   ("enable_velocity_demand", fun enabled => enabled.enable_velocity_demand),
   ("enable_velocity_error_time", fun enabled => enabled.enable_velocity_error_time),
   ("enable_velocity_error_window", fun enabled => enabled.enable_velocity_error_window),
   ("enable_velocity_sensor_selector", fun enabled => enabled.enable_velocity_sensor_selector),
   ("enable_velocity_threshold_time", fun enabled => enabled.enable_velocity_threshold_time),
   ("enable_velocity_threshold_window", fun enabled => enabled.enable_velocity_threshold_window),
   ("enable_vl_accel", fun enabled => enabled.enable_vl_accel),
   ("enable_vl_decel", fun enabled => enabled.enable_vl_decel),
   ("enable_vl_maximum", fun enabled => enabled.enable_vl_maximum),
   ("enable_vl_minimum", fun enabled => enabled.enable_vl_minimum)]

/-- The names of the `enable_*` fields of `lcec_class_cia402_options_t`. -/
def lcec_class_cia402_options_names : List String :=
  lcec_class_cia402_options_fields.map Prod.fst

/-- The names of the `enable_*` fields of `lcec_class_cia402_enabled_t`. -/
def lcec_class_cia402_enabled_names : List String :=
  lcec_class_cia402_enabled_fields.map Prod.fst

theorem toByte_testBit (v j : Nat) :
    (toByte v).val.testBit j = (decide (j < 8) && v.testBit j) := by
  show (v % 2 ^ 8).testBit j = _
  rw [Nat.testBit_mod_two_pow]

theorem byte_testBit_high (b : Byte) (j : Nat) (h : 8 ≤ j) : b.val.testBit j = false := by
  apply Nat.testBit_lt_two_pow
  calc b.val < 2 ^ 8 := b.isLt
    _ ≤ 2 ^ j := Nat.pow_le_pow_right (by decide) h

theorem EC_READ_BIT_eq (pd : ProcessData) (os pos : Nat) :
    EC_READ_BIT pd os pos = if (pd os).val.testBit pos then 1 else 0 := by
  unfold EC_READ_BIT
  rw [Nat.and_one_is_mod]
  have h := Nat.toNat_testBit (pd os).val pos
  rw [Nat.shiftRight_eq_div_pow]
  rw [← h]
  cases (pd os).val.testBit pos <;> rfl

theorem store_apply (pd : ProcessData) (os : Nat) (b : Byte) (a : Nat) :
    store pd os b a = if a = os then b else pd a := rfl

theorem EC_WRITE_BIT_testBit (pd : ProcessData) (os pos val a j : Nat) (hpos : pos < 8) :
    ((EC_WRITE_BIT pd os pos val) a).val.testBit j =
      if a = os ∧ j = pos then decide (val ≠ 0) else (pd a).val.testBit j := by
  have hcompl : (0xFFFFFFFF : Nat) - 1 <<< pos = 2 ^ 32 - (2 ^ pos + 1) := by
    rw [Nat.one_shiftLeft]
    have h32 : (2 : Nat) ^ 32 = 4294967296 := by norm_num
    omega
  have hlt : 2 ^ pos < 2 ^ 32 := Nat.pow_lt_pow_right (by decide) (by omega)
  unfold EC_WRITE_BIT
  by_cases hv : val ≠ 0
  · rw [if_pos hv, store_apply]
    by_cases ha : a = os
    · subst ha
      rw [if_pos rfl, toByte_testBit, Nat.testBit_or, Nat.one_shiftLeft, Nat.testBit_two_pow]
      by_cases hj : j = pos
      · subst hj
        simp [hv, hpos]
      · have hj2 : ¬ pos = j := fun h => hj h.symm
        by_cases hj8 : j < 8
        · simp [hj, hj2, hj8]
        · simp [hj, hj2, hj8, byte_testBit_high (pd a) j (by omega)]
    · simp [ha]
  · rw [if_neg hv, store_apply]
    by_cases ha : a = os
    · subst ha
      rw [if_pos rfl, toByte_testBit, Nat.testBit_and, hcompl, Nat.testBit_two_pow_sub_succ hlt,
        Nat.testBit_two_pow]
      by_cases hj : j = pos
      · subst hj
        simp [hv]
      · have hj2 : ¬ pos = j := fun h => hj h.symm
        by_cases hj8 : j < 8
        · have hj32 : j < 32 := by omega
          simp [hj, hj2, hj8, hj32]
        · simp [hj, hj2, hj8, byte_testBit_high (pd a) j (by omega)]
    · simp [ha]

theorem byte_ext_testBit (b c : Byte) (h : ∀ j, b.val.testBit j = c.val.testBit j) : b = c :=
  Fin.ext (Nat.eq_of_testBit_eq h)

theorem bit_value_eq (n k : Nat) : n / 2 ^ k % 2 = if n.testBit k then 1 else 0 := by
  rw [← Nat.toNat_testBit]
  cases n.testBit k <;> rfl

/-! ## lcec_el95xx_read -/

/-- C1: when the slave is not operational, `lcec_el95xx_read` leaves the pins
`power_ok` and `overload` at their prior values and the process image
unchanged, whatever the process image and the pins hold; indeed the whole slave
record is returned as it was. -/
theorem lcec_el95xx_read_not_operational (slave : lcec_slave lcec_el95xx_data_t)
    (hop : slave.state.operational = false) :
    (lcec_el95xx_read slave).hal_data.power_ok = slave.hal_data.power_ok ∧
    (lcec_el95xx_read slave).hal_data.overload = slave.hal_data.overload ∧
    (lcec_el95xx_read slave).process_data = slave.process_data ∧
    lcec_el95xx_read slave = slave := by
  have h : lcec_el95xx_read slave = slave := by
    unfold lcec_el95xx_read
    simp [hop]
  rw [h]
  exact ⟨rfl, rfl, rfl, rfl⟩

theorem lcec_el95xx_read_not_operational_witness :
    (slave_example false 0 el95xx_example).state.operational = false ∧
    (lcec_el95xx_read (slave_example false 0 el95xx_example)).hal_data.power_ok = 1 ∧
    (lcec_el95xx_read (slave_example false 0 el95xx_example)).hal_data.overload = 1 ∧
    (lcec_el95xx_read (slave_example false 0 el95xx_example)).process_data = pd_example ∧
    lcec_el95xx_read (slave_example false 0 el95xx_example)
      = slave_example false 0 el95xx_example :=
  ⟨rfl, lcec_el95xx_read_not_operational (slave_example false 0 el95xx_example) rfl⟩

/-- C5: when the slave is operational and both bit positions are below 8,
`lcec_el95xx_read` sets `power_ok` to bit `power_ok_pdo_bp` of the byte
`pd[power_ok_pdo_os]` and `overload` to bit `overload_pdo_bp` of the byte
`pd[overload_pdo_os]`; each value is 0 or 1, and each is the same for any other
process image that agrees on that one bit. -/
theorem lcec_el95xx_read_operational (slave : lcec_slave lcec_el95xx_data_t)
    (hop : slave.state.operational = true)
    (_hbp1 : slave.hal_data.power_ok_pdo_bp < 8) (_hbp2 : slave.hal_data.overload_pdo_bp < 8) :
    (lcec_el95xx_read slave).hal_data.power_ok =
      (slave.process_data slave.hal_data.power_ok_pdo_os).val
        / 2 ^ slave.hal_data.power_ok_pdo_bp % 2 ∧
    (lcec_el95xx_read slave).hal_data.overload =
      (slave.process_data slave.hal_data.overload_pdo_os).val
        / 2 ^ slave.hal_data.overload_pdo_bp % 2 ∧
    ((lcec_el95xx_read slave).hal_data.power_ok = 0 ∨
      (lcec_el95xx_read slave).hal_data.power_ok = 1) ∧
    ((lcec_el95xx_read slave).hal_data.overload = 0 ∨
      (lcec_el95xx_read slave).hal_data.overload = 1) ∧
    (∀ pd : ProcessData,
      (pd slave.hal_data.power_ok_pdo_os).val.testBit slave.hal_data.power_ok_pdo_bp =
        (slave.process_data slave.hal_data.power_ok_pdo_os).val.testBit
          slave.hal_data.power_ok_pdo_bp →
      (lcec_el95xx_read { slave with process_data := pd }).hal_data.power_ok =
        (lcec_el95xx_read slave).hal_data.power_ok) ∧
    (∀ pd : ProcessData,
      (pd slave.hal_data.overload_pdo_os).val.testBit slave.hal_data.overload_pdo_bp =
        (slave.process_data slave.hal_data.overload_pdo_os).val.testBit
          slave.hal_data.overload_pdo_bp →
      (lcec_el95xx_read { slave with process_data := pd }).hal_data.overload =
        (lcec_el95xx_read slave).hal_data.overload) := by
  have hp : ∀ s : lcec_slave lcec_el95xx_data_t, s.state.operational = true →
      (lcec_el95xx_read s).hal_data.power_ok =
        EC_READ_BIT s.process_data s.hal_data.power_ok_pdo_os s.hal_data.power_ok_pdo_bp := by
    intro s hs
    unfold lcec_el95xx_read
    simp [hs]
  have ho : ∀ s : lcec_slave lcec_el95xx_data_t, s.state.operational = true →
      (lcec_el95xx_read s).hal_data.overload =
        EC_READ_BIT s.process_data s.hal_data.overload_pdo_os s.hal_data.overload_pdo_bp := by
    intro s hs
    unfold lcec_el95xx_read
    simp [hs]
  refine ⟨?_, ?_, ?_, ?_, ?_, ?_⟩
  · rw [hp slave hop, EC_READ_BIT_eq, bit_value_eq]
  · rw [ho slave hop, EC_READ_BIT_eq, bit_value_eq]
  · rw [hp slave hop, EC_READ_BIT_eq]
    split
    · exact Or.inr rfl
    · exact Or.inl rfl
  · rw [ho slave hop, EC_READ_BIT_eq]
    split
    · exact Or.inr rfl
    · exact Or.inl rfl
  · intro pd hpd
    rw [hp slave hop, hp { slave with process_data := pd } hop, EC_READ_BIT_eq,
      EC_READ_BIT_eq]
    dsimp only
    rw [hpd]
  · intro pd hpd
    rw [ho slave hop, ho { slave with process_data := pd } hop, EC_READ_BIT_eq,
      EC_READ_BIT_eq]
    dsimp only
    rw [hpd]

theorem lcec_el95xx_read_operational_witness :
    (slave_example true 0 el95xx_example).state.operational = true ∧
    (slave_example true 0 el95xx_example).hal_data.power_ok_pdo_bp < 8 ∧
    (slave_example true 0 el95xx_example).hal_data.overload_pdo_bp < 8 ∧
    (lcec_el95xx_read (slave_example true 0 el95xx_example)).hal_data.power_ok = 1 ∧
    (lcec_el95xx_read (slave_example true 0 el95xx_example)).hal_data.overload = 0 :=
  ⟨rfl, by decide, by decide,
    (lcec_el95xx_read_operational (slave_example true 0 el95xx_example) rfl
      (by decide) (by decide)).1.trans (by decide),
    (lcec_el95xx_read_operational (slave_example true 0 el95xx_example) rfl
      (by decide) (by decide)).2.1.trans (by decide)⟩

/-! ## lcec_el2904_read -/

theorem EC_READ_U16_eq (pd : ProcessData) (os : Nat) :
    EC_READ_U16 pd os = (pd os).val + 256 * (pd (os + 1)).val := by
  unfold EC_READ_U16
  have hlt : (pd os).val < 2 ^ 8 := (pd os).isLt
  have h := Nat.mul_add_lt_is_or hlt (pd (os + 1)).val
  rw [Nat.shiftLeft_eq, Nat.or_comm, Nat.mul_comm, ← h]
  omega

theorem EC_READ_U16_lt (pd : ProcessData) (os : Nat) : EC_READ_U16 pd os < 65536 := by
  rw [EC_READ_U16_eq]
  have h1 := (pd os).isLt
  have h2 := (pd (os + 1)).isLt
  omega

/-- C6: `lcec_el2904_read` loads each field with its declared width, unsigned
and little-endian, from the process image left by the FSoE copy step: the two
command pins are the byte at their offset (below 256), and the CRC and
connection-id pins are `pd[os] + 256 * pd[os + 1]` at their own offset (below
65536). The process image after the call is the one left by the copy step. -/
theorem lcec_el2904_read_extraction
    (copy_fsoe_data : lcec_slave lcec_el2904_data_t → Nat → Nat → ProcessData)
    (slave : lcec_slave lcec_el2904_data_t) :
    (lcec_el2904_read copy_fsoe_data slave).process_data =
      lcec_el2904_pd_after_copy copy_fsoe_data slave ∧
    ((lcec_el2904_read copy_fsoe_data slave).hal_data.fsoe_slave_cmd =
        (lcec_el2904_pd_after_copy copy_fsoe_data slave slave.hal_data.fsoe_slave_cmd_os).val ∧
      (lcec_el2904_read copy_fsoe_data slave).hal_data.fsoe_slave_cmd < 256) ∧
    ((lcec_el2904_read copy_fsoe_data slave).hal_data.fsoe_master_cmd =
        (lcec_el2904_pd_after_copy copy_fsoe_data slave slave.hal_data.fsoe_master_cmd_os).val ∧
      (lcec_el2904_read copy_fsoe_data slave).hal_data.fsoe_master_cmd < 256) ∧
    ((lcec_el2904_read copy_fsoe_data slave).hal_data.fsoe_slave_crc =
        (lcec_el2904_pd_after_copy copy_fsoe_data slave slave.hal_data.fsoe_slave_crc_os).val +
        256 * (lcec_el2904_pd_after_copy copy_fsoe_data slave
          (slave.hal_data.fsoe_slave_crc_os + 1)).val ∧
      (lcec_el2904_read copy_fsoe_data slave).hal_data.fsoe_slave_crc < 65536) ∧
    ((lcec_el2904_read copy_fsoe_data slave).hal_data.fsoe_slave_connid =
        (lcec_el2904_pd_after_copy copy_fsoe_data slave slave.hal_data.fsoe_slave_connid_os).val +
        256 * (lcec_el2904_pd_after_copy copy_fsoe_data slave
          (slave.hal_data.fsoe_slave_connid_os + 1)).val ∧
      (lcec_el2904_read copy_fsoe_data slave).hal_data.fsoe_slave_connid < 65536) ∧
    ((lcec_el2904_read copy_fsoe_data slave).hal_data.fsoe_master_crc =
        (lcec_el2904_pd_after_copy copy_fsoe_data slave slave.hal_data.fsoe_master_crc_os).val +
        256 * (lcec_el2904_pd_after_copy copy_fsoe_data slave
          (slave.hal_data.fsoe_master_crc_os + 1)).val ∧
      (lcec_el2904_read copy_fsoe_data slave).hal_data.fsoe_master_crc < 65536) ∧
    ((lcec_el2904_read copy_fsoe_data slave).hal_data.fsoe_master_connid =
        (lcec_el2904_pd_after_copy copy_fsoe_data slave
          slave.hal_data.fsoe_master_connid_os).val +
        256 * (lcec_el2904_pd_after_copy copy_fsoe_data slave
          (slave.hal_data.fsoe_master_connid_os + 1)).val ∧
      (lcec_el2904_read copy_fsoe_data slave).hal_data.fsoe_master_connid < 65536) := by
  refine ⟨rfl, ⟨rfl, ?_⟩, ⟨rfl, ?_⟩, ⟨?_, ?_⟩, ⟨?_, ?_⟩, ⟨?_, ?_⟩, ⟨?_, ?_⟩⟩
  · exact (copy_fsoe_data slave _ _ _).isLt
  · exact (copy_fsoe_data slave _ _ _).isLt
  · exact EC_READ_U16_eq _ _
  · exact EC_READ_U16_lt _ _
  · exact EC_READ_U16_eq _ _
  · exact EC_READ_U16_lt _ _
  · exact EC_READ_U16_eq _ _
  · exact EC_READ_U16_lt _ _
  · exact EC_READ_U16_eq _ _
  · exact EC_READ_U16_lt _ _

/-! ## lcec_el2904_write -/

theorem lcec_el2904_write_testBit (slave : lcec_slave lcec_el2904_data_t)
    (hbp0 : slave.hal_data.out_0_bp < 8) (hbp1 : slave.hal_data.out_1_bp < 8)
    (hbp2 : slave.hal_data.out_2_bp < 8) (hbp3 : slave.hal_data.out_3_bp < 8) (a j : Nat) :
    ((lcec_el2904_write slave).process_data a).val.testBit j =
      if a = slave.hal_data.out_3_os ∧ j = slave.hal_data.out_3_bp then
        decide (slave.hal_data.out_3 ≠ 0)
      else if a = slave.hal_data.out_2_os ∧ j = slave.hal_data.out_2_bp then
        decide (slave.hal_data.out_2 ≠ 0)
      else if a = slave.hal_data.out_1_os ∧ j = slave.hal_data.out_1_bp then
        decide (slave.hal_data.out_1 ≠ 0)
      else if a = slave.hal_data.out_0_os ∧ j = slave.hal_data.out_0_bp then
        decide (slave.hal_data.out_0 ≠ 0)
      else (slave.process_data a).val.testBit j := by
  unfold lcec_el2904_write
  dsimp only
  rw [EC_WRITE_BIT_testBit _ _ _ _ _ _ hbp3, EC_WRITE_BIT_testBit _ _ _ _ _ _ hbp2,
    EC_WRITE_BIT_testBit _ _ _ _ _ _ hbp1, EC_WRITE_BIT_testBit _ _ _ _ _ _ hbp0]

/-- C2: `lcec_el2904_write` does not disturb neighbouring bits. For every
process image, pin state and operational flag, and all resolved locations with
bit positions below 8, every bit `(a, j)` of the process image other than the
four bits at the locations `(out_k_os, out_k_bp)` is unchanged; in particular
every byte at an offset other than the four `out_k_os` is unchanged. -/
theorem lcec_el2904_write_frame (slave : lcec_slave lcec_el2904_data_t)
    (hbp0 : slave.hal_data.out_0_bp < 8) (hbp1 : slave.hal_data.out_1_bp < 8)
    (hbp2 : slave.hal_data.out_2_bp < 8) (hbp3 : slave.hal_data.out_3_bp < 8) :
    (∀ a j : Nat, (a, j) ∉ lcec_el2904_out_locations slave.hal_data →
      ((lcec_el2904_write slave).process_data a).val.testBit j =
        (slave.process_data a).val.testBit j) ∧
    (∀ a : Nat, a ∉ (lcec_el2904_out_locations slave.hal_data).map Prod.fst →
      (lcec_el2904_write slave).process_data a = slave.process_data a) := by
  have hbits : ∀ a j : Nat, (a, j) ∉ lcec_el2904_out_locations slave.hal_data →
      ((lcec_el2904_write slave).process_data a).val.testBit j =
        (slave.process_data a).val.testBit j := by
    intro a j hmem
    simp only [lcec_el2904_out_locations, List.mem_cons, List.mem_singleton, Prod.mk.injEq,
      List.not_mem_nil, or_false, not_or] at hmem
    obtain ⟨h0, h1, h2, h3⟩ := hmem
    rw [lcec_el2904_write_testBit slave hbp0 hbp1 hbp2 hbp3, if_neg h3, if_neg h2, if_neg h1,
      if_neg h0]
  refine ⟨hbits, ?_⟩
  intro a hmem
  apply byte_ext_testBit
  intro j
  apply hbits
  intro hin
  exact hmem (List.mem_map_of_mem Prod.fst hin)

theorem lcec_el2904_write_frame_witness :
    (slave_example false 0 el2904_example).hal_data.out_0_bp < 8 ∧
    (slave_example false 0 el2904_example).hal_data.out_1_bp < 8 ∧
    (slave_example false 0 el2904_example).hal_data.out_2_bp < 8 ∧
    (slave_example false 0 el2904_example).hal_data.out_3_bp < 8 ∧
    (2, 5) ∉ lcec_el2904_out_locations (slave_example false 0 el2904_example).hal_data ∧
    ((lcec_el2904_write (slave_example false 0 el2904_example)).process_data 2).val.testBit 5
      = true ∧
    (lcec_el2904_write (slave_example false 0 el2904_example)).process_data 2 = 0xE5 ∧
    (lcec_el2904_write (slave_example false 0 el2904_example)).process_data 3 = 0x14 :=
  ⟨by decide, by decide, by decide, by decide, by decide,
    ((lcec_el2904_write_frame (slave_example false 0 el2904_example)
      (by decide) (by decide) (by decide) (by decide)).1 2 5 (by decide)).trans (by decide),
    by decide,
    ((lcec_el2904_write_frame (slave_example false 0 el2904_example)
      (by decide) (by decide) (by decide) (by decide)).2 3 (by decide)).trans (by decide)⟩

/-- C3: bit round trip for `lcec_el2904_write`. If the four locations
`(out_k_os, out_k_bp)` are pairwise distinct and all bit positions are below 8,
then after the write the single-bit extraction of the read side
(`EC_READ_BIT` at `(out_k_os, out_k_bp)`) yields 1 when pin `out_k` is non-zero
and 0 otherwise, for every `k` and every prior process image. -/
theorem lcec_el2904_write_read_bit (slave : lcec_slave lcec_el2904_data_t)
    (hbp0 : slave.hal_data.out_0_bp < 8) (hbp1 : slave.hal_data.out_1_bp < 8)
    (hbp2 : slave.hal_data.out_2_bp < 8) (hbp3 : slave.hal_data.out_3_bp < 8)
    (hdistinct : (lcec_el2904_out_locations slave.hal_data).Nodup) :
    EC_READ_BIT (lcec_el2904_write slave).process_data
        slave.hal_data.out_0_os slave.hal_data.out_0_bp =
      (if slave.hal_data.out_0 ≠ 0 then 1 else 0) ∧
    EC_READ_BIT (lcec_el2904_write slave).process_data
        slave.hal_data.out_1_os slave.hal_data.out_1_bp =
      (if slave.hal_data.out_1 ≠ 0 then 1 else 0) ∧
    EC_READ_BIT (lcec_el2904_write slave).process_data
        slave.hal_data.out_2_os slave.hal_data.out_2_bp =
      (if slave.hal_data.out_2 ≠ 0 then 1 else 0) ∧
    EC_READ_BIT (lcec_el2904_write slave).process_data
        slave.hal_data.out_3_os slave.hal_data.out_3_bp =
      (if slave.hal_data.out_3 ≠ 0 then 1 else 0) := by
  simp only [lcec_el2904_out_locations, List.nodup_cons, List.mem_cons, List.mem_singleton,
    Prod.mk.injEq, List.not_mem_nil, or_false, not_or, not_false_eq_true, List.nodup_nil,
    and_true] at hdistinct
  obtain ⟨⟨h01, h02, h03⟩, ⟨h12, h13⟩, h23⟩ := hdistinct
  refine ⟨?_, ?_, ?_, ?_⟩
  · rw [EC_READ_BIT_eq, lcec_el2904_write_testBit slave hbp0 hbp1 hbp2 hbp3, if_neg h03,
      if_neg h02, if_neg h01, if_pos (And.intro rfl rfl)]
    by_cases h : slave.hal_data.out_0 = 0 <;> simp [h]
  · rw [EC_READ_BIT_eq, lcec_el2904_write_testBit slave hbp0 hbp1 hbp2 hbp3, if_neg h13,
      if_neg h12, if_pos (And.intro rfl rfl)]
    by_cases h : slave.hal_data.out_1 = 0 <;> simp [h]
  · rw [EC_READ_BIT_eq, lcec_el2904_write_testBit slave hbp0 hbp1 hbp2 hbp3, if_neg h23,
      if_pos (And.intro rfl rfl)]
    by_cases h : slave.hal_data.out_2 = 0 <;> simp [h]
  · rw [EC_READ_BIT_eq, lcec_el2904_write_testBit slave hbp0 hbp1 hbp2 hbp3,
      if_pos (And.intro rfl rfl)]
    by_cases h : slave.hal_data.out_3 = 0 <;> simp [h]

theorem lcec_el2904_write_read_bit_witness :
    (slave_example true 0 el2904_example).hal_data.out_0_bp < 8 ∧
    (slave_example true 0 el2904_example).hal_data.out_1_bp < 8 ∧
    (slave_example true 0 el2904_example).hal_data.out_2_bp < 8 ∧
    (slave_example true 0 el2904_example).hal_data.out_3_bp < 8 ∧
    (lcec_el2904_out_locations (slave_example true 0 el2904_example).hal_data).Nodup ∧
    EC_READ_BIT (lcec_el2904_write (slave_example true 0 el2904_example)).process_data 2 0
      = 1 ∧
    EC_READ_BIT (lcec_el2904_write (slave_example true 0 el2904_example)).process_data 2 1
      = 0 ∧
    EC_READ_BIT (lcec_el2904_write (slave_example true 0 el2904_example)).process_data 2 2
      = 1 ∧
    EC_READ_BIT (lcec_el2904_write (slave_example true 0 el2904_example)).process_data 2 3
      = 0 :=
  ⟨by decide, by decide, by decide, by decide, by decide,
    lcec_el2904_write_read_bit (slave_example true 0 el2904_example)
      (by decide) (by decide) (by decide) (by decide) (by decide)⟩

/-! ## lcec_ex260_write -/

theorem lcec_ex260_write_loop_succ_at (hal_data : Nat → lcec_ex260_pin_t) (pd : ProcessData)
    (i : Nat) :
    lcec_ex260_write_loop hal_data pd (i + 1) (hal_data i).pdo_os =
      toByte (lcec_ex260_s (hal_data i)) := by
  show store _ _ _ _ = _
  rw [store_apply, if_pos rfl]

theorem lcec_ex260_write_loop_other (hal_data : Nat → lcec_ex260_pin_t) (pd : ProcessData)
    (n a : Nat) (h : (hal_data n).pdo_os ≠ a) :
    lcec_ex260_write_loop hal_data pd (n + 1) a = lcec_ex260_write_loop hal_data pd n a := by
  show store _ _ _ _ = _
  rw [store_apply, if_neg (fun e => h e.symm)]

theorem lcec_ex260_write_loop_keep (hal_data : Nat → lcec_ex260_pin_t) (pd : ProcessData)
    (i n : Nat) (hin : i < n)
    (hlater : ∀ j, i < j → j < n → (hal_data j).pdo_os ≠ (hal_data i).pdo_os) :
    lcec_ex260_write_loop hal_data pd n (hal_data i).pdo_os =
      toByte (lcec_ex260_s (hal_data i)) := by
  induction n with
  | zero => omega
  | succ m ih =>
    by_cases him : i = m
    · subst him
      exact lcec_ex260_write_loop_succ_at hal_data pd i
    · rw [lcec_ex260_write_loop_other hal_data pd m _ (hlater m (by omega) (by omega))]
      exact ih (by omega) (fun j h1 h2 => hlater j h1 (by omega))

theorem lcec_ex260_s_bits (b0 b1 b2 b3 b4 b5 b6 b7 : Bool) (k : Fin 8) :
    (toByte (lcec_ex260_s
      { sol_1a := b0.toNat, sol_1b := b1.toNat, sol_2a := b2.toNat, sol_2b := b3.toNat,
        sol_3a := b4.toNat, sol_3b := b5.toNat, sol_4a := b6.toNat, sol_4b := b7.toNat,
        pdo_os := 0, pdo_bp := 0 })).val / 2 ^ k.val % 2 =
      [b0.toNat, b1.toNat, b2.toNat, b3.toNat, b4.toNat, b5.toNat, b6.toNat,
        b7.toNat].getD k.val 0 := by
  revert b0 b1 b2 b3 b4 b5 b6 b7 k
  decide

theorem bool_of_zero_or_one (a : Nat) (h : a = 0 ∨ a = 1) : ∃ b : Bool, a = b.toNat := by
  rcases h with h | h
  · exact ⟨false, h⟩
  · exact ⟨true, h⟩

theorem lcec_ex260_s_bit_of_pins (pin : lcec_ex260_pin_t)
    (h01 : ∀ p ∈ lcec_ex260_pins pin, p = 0 ∨ p = 1) (k : Nat) (hk : k < 8) :
    (toByte (lcec_ex260_s pin)).val / 2 ^ k % 2 = (lcec_ex260_pins pin).getD k 0 := by
  obtain ⟨a0, a1, a2, a3, a4, a5, a6, a7, os, bp⟩ := pin
  simp only [lcec_ex260_pins, List.mem_cons, List.mem_singleton, List.not_mem_nil, or_false,
    forall_eq_or_imp, forall_eq] at h01
  obtain ⟨h0, h1, h2, h3, h4, h5, h6, h7⟩ := h01
  obtain ⟨b0, rfl⟩ := bool_of_zero_or_one a0 h0
  obtain ⟨b1, rfl⟩ := bool_of_zero_or_one a1 h1
  obtain ⟨b2, rfl⟩ := bool_of_zero_or_one a2 h2
  obtain ⟨b3, rfl⟩ := bool_of_zero_or_one a3 h3
  obtain ⟨b4, rfl⟩ := bool_of_zero_or_one a4 h4
  obtain ⟨b5, rfl⟩ := bool_of_zero_or_one a5 h5
  obtain ⟨b6, rfl⟩ := bool_of_zero_or_one a6 h6
  obtain ⟨b7, rfl⟩ := bool_of_zero_or_one a7 h7
  exact lcec_ex260_s_bits b0 b1 b2 b3 b4 b5 b6 b7 ⟨k, hk⟩

/-- C4: `lcec_ex260_write` packs the eight solenoid pins of each valve bank into
one byte. When the slave is operational and the banks' bytes are resolved to
pairwise different offsets (bring-up registers a separate entry per bank, and
disjoint offsets are an invariant of the configuration), for every bank
`i < slave->flags` the byte at `pd[pin_i.pdo_os]` after the call is
`(sol_1a | sol_1b<<1 | sol_2a<<2 | sol_2b<<3 | sol_3a<<4 | sol_3b<<5 |
sol_4a<<6 | sol_4b<<7) mod 256`; hence, when every pin of the bank is 0 or 1,
bit `k` of that byte is the `k`-th pin in the order 1a, 1b, 2a, 2b, 3a, 3b, 4a,
4b. -/
theorem lcec_ex260_write_packs (slave : lcec_slave (Nat → lcec_ex260_pin_t))
    (hop : slave.state.operational = true)
    (hdistinct : ∀ i j, i < slave.flags → j < slave.flags → i ≠ j →
      (slave.hal_data i).pdo_os ≠ (slave.hal_data j).pdo_os)
    (i : Nat) (hi : i < slave.flags) :
    ((lcec_ex260_write slave).process_data (slave.hal_data i).pdo_os).val =
      ((slave.hal_data i).sol_1a ||| ((slave.hal_data i).sol_1b <<< 1) |||
        ((slave.hal_data i).sol_2a <<< 2) ||| ((slave.hal_data i).sol_2b <<< 3) |||
        ((slave.hal_data i).sol_3a <<< 4) ||| ((slave.hal_data i).sol_3b <<< 5) |||
        ((slave.hal_data i).sol_4a <<< 6) ||| ((slave.hal_data i).sol_4b <<< 7)) % 256 ∧
    ((∀ p ∈ lcec_ex260_pins (slave.hal_data i), p = 0 ∨ p = 1) →
      ∀ k, k < 8 →
        ((lcec_ex260_write slave).process_data (slave.hal_data i).pdo_os).val / 2 ^ k % 2 =
          (lcec_ex260_pins (slave.hal_data i)).getD k 0) := by
  have hw : (lcec_ex260_write slave).process_data =
      lcec_ex260_write_loop slave.hal_data slave.process_data slave.flags := by
    unfold lcec_ex260_write
    simp [hop]
  have hfinal := lcec_ex260_write_loop_keep slave.hal_data slave.process_data i slave.flags
    hi (fun j hij hj => hdistinct j i hj hi (by omega))
  rw [hw, hfinal]
  refine ⟨rfl, ?_⟩
  intro h01 k hk
  exact lcec_ex260_s_bit_of_pins (slave.hal_data i) h01 k hk

theorem ex260_example_offsets_distinct (hal_data : Nat → lcec_ex260_pin_t)
    (h0 : (hal_data 0).pdo_os = 4) (h1 : (hal_data 1).pdo_os = 5) :
    ∀ i j, i < 2 → j < 2 → i ≠ j → (hal_data i).pdo_os ≠ (hal_data j).pdo_os := by
  intro i j hi hj hne
  have hcases : (i = 0 ∧ j = 1) ∨ (i = 1 ∧ j = 0) := by omega
  rcases hcases with ⟨rfl, rfl⟩ | ⟨rfl, rfl⟩
  · rw [h0, h1]
    decide
  · rw [h1, h0]
    decide

theorem lcec_ex260_write_packs_witness :
    (slave_example true 2 ex260_example).state.operational = true ∧
    (∀ i j, i < (slave_example true 2 ex260_example).flags →
      j < (slave_example true 2 ex260_example).flags → i ≠ j →
      ((slave_example true 2 ex260_example).hal_data i).pdo_os ≠
        ((slave_example true 2 ex260_example).hal_data j).pdo_os) ∧
    0 < (slave_example true 2 ex260_example).flags ∧
    ((lcec_ex260_write (slave_example true 2 ex260_example)).process_data 4).val = 0x85 ∧
    ((lcec_ex260_write (slave_example true 2 ex260_example)).process_data 4).val
      / 2 ^ 7 % 2 = 1 :=
  ⟨rfl, ex260_example_offsets_distinct ex260_example rfl rfl, by decide,
    (lcec_ex260_write_packs (slave_example true 2 ex260_example) rfl
      (ex260_example_offsets_distinct ex260_example rfl rfl) 0 (by decide)).1.trans
      (by decide),
    ((lcec_ex260_write_packs (slave_example true 2 ex260_example) rfl
      (ex260_example_offsets_distinct ex260_example rfl rfl) 0 (by decide)).2
      (by decide) 7 (by decide)).trans (by decide)⟩

/-! ## The modparam identifiers of lcec_class_cia402.h -/

theorem CIA402_MP_table_nodup : CIA402_MP_table.Nodup := by decide

theorem CIA402_MP_table_bounds :
    ∀ id ∈ CIA402_MP_table, CIA402_MP_BASE ≤ id ∧ id ≤ 0x2370 ∧ id % 8 = 0 := by decide

theorem channelized_id_inj (id₁ id₂ c₁ c₂ : Nat) (h₁ : id₁ % 8 = 0) (h₂ : id₂ % 8 = 0)
    (hc₁ : c₁ < 8) (hc₂ : c₂ < 8) (h : channelized_id id₁ c₁ = channelized_id id₂ c₂) :
    id₁ = id₂ ∧ c₁ = c₂ := by
  unfold channelized_id at h
  omega

theorem mem_channelized_modparams (N : Nat) (orig : List Nat) (d : Nat) :
    d ∈ lcec_cia402_channelized_modparams N orig ↔
      ∃ c, c < N ∧ ∃ id ∈ orig, channelized_id id c = d := by
  simp [lcec_cia402_channelized_modparams, List.mem_flatMap, List.mem_map, List.mem_range]

theorem length_channelized_modparams (N : Nat) (orig : List Nat) :
    (lcec_cia402_channelized_modparams N orig).length = N * orig.length := by
  unfold lcec_cia402_channelized_modparams
  induction N with
  | zero => simp
  | succ n ih =>
    rw [List.range_succ, List.flatMap_append, List.length_append, ih]
    simp [Nat.succ_mul]

/-- C7: channelized modparam identifiers never collide. For `N ≤ 8` channels
and the `K = 66` identifiers `CIA402_MP_*` of the header, the derived
identifiers `id + c`, `c = 0..N-1`, are exactly `N * 66` in number, pairwise
distinct, and all within the band from `CIA402_MP_BASE` up to `0x2378`
(excluded). -/
theorem channelized_modparams_no_collision (N : Nat) (hN : N ≤ 8) :
    CIA402_MP_table.length = 66 ∧
    (lcec_cia402_channelized_modparams N CIA402_MP_table).length = N * 66 ∧
    (lcec_cia402_channelized_modparams N CIA402_MP_table).Nodup ∧
    ∀ d ∈ lcec_cia402_channelized_modparams N CIA402_MP_table,
      CIA402_MP_BASE ≤ d ∧ d < 0x2378 := by
  refine ⟨rfl, ?_, ?_, ?_⟩
  · exact length_channelized_modparams N CIA402_MP_table
  · unfold lcec_cia402_channelized_modparams
    rw [List.nodup_flatMap]
    constructor
    · intro c hc
      have hc8 : c < 8 := by
        have := List.mem_range.mp hc
        omega
      apply List.Nodup.map_on _ CIA402_MP_table_nodup
      intro x hx y hy hxy
      exact (channelized_id_inj x y c c (CIA402_MP_table_bounds x hx).2.2
        (CIA402_MP_table_bounds y hy).2.2 hc8 hc8 hxy).1
    · apply List.Pairwise.imp_of_mem _ (List.pairwise_lt_range N)
      intro a b ha hb hab
      have ha8 : a < 8 := by
        have := List.mem_range.mp ha
        omega
      have hb8 : b < 8 := by
        have := List.mem_range.mp hb
        omega
      intro d hda hdb
      obtain ⟨x, hx, hxd⟩ := List.mem_map.mp hda
      obtain ⟨y, hy, hyd⟩ := List.mem_map.mp hdb
      have := (channelized_id_inj x y a b (CIA402_MP_table_bounds x hx).2.2
        (CIA402_MP_table_bounds y hy).2.2 ha8 hb8 (hxd.trans hyd.symm)).2
      omega
  · intro d hd
    obtain ⟨c, hc, id, hid, hdeq⟩ := (mem_channelized_modparams N CIA402_MP_table d).mp hd
    have hb := CIA402_MP_table_bounds id hid
    unfold channelized_id at hdeq
    unfold CIA402_MP_BASE at hb ⊢
    omega

theorem channelized_modparams_no_collision_witness :
    (8 : Nat) ≤ 8 ∧
    CIA402_MP_table.length = 66 ∧
    (lcec_cia402_channelized_modparams 8 CIA402_MP_table).length = 8 * 66 ∧
    (lcec_cia402_channelized_modparams 8 CIA402_MP_table).Nodup ∧
    ∀ d ∈ lcec_cia402_channelized_modparams 8 CIA402_MP_table,
      CIA402_MP_BASE ≤ d ∧ d < 0x2378 :=
  ⟨by decide, channelized_modparams_no_collision 8 (by decide)⟩

/-- C8: every modparam identifier `CIA402_MP_*` of the header is at least
`CIA402_MP_BASE` (`0x1000`) and a multiple of 8; no two of the 66 definitions
have the same value, and any two different identifiers of the table are at
least 8 apart, so that 7 unused identifiers follow each one. -/
theorem CIA402_MP_table_spacing :
    CIA402_MP_BASE = 0x1000 ∧
    CIA402_MP_table.length = 66 ∧
    CIA402_MP_table.Nodup ∧
    (∀ id ∈ CIA402_MP_table, CIA402_MP_BASE ≤ id ∧ id % 8 = 0) ∧
    (∀ id₁ ∈ CIA402_MP_table, ∀ id₂ ∈ CIA402_MP_table, id₁ ≠ id₂ →
      id₁ + 8 ≤ id₂ ∨ id₂ + 8 ≤ id₁) ∧
    (∀ id ∈ CIA402_MP_table, ∀ k, 0 < k → k < 8 → id + k ∉ CIA402_MP_table) := by
  refine ⟨rfl, rfl, CIA402_MP_table_nodup, ?_, ?_, ?_⟩
  · intro id hid
    exact ⟨(CIA402_MP_table_bounds id hid).1, (CIA402_MP_table_bounds id hid).2.2⟩
  · intro id₁ h₁ id₂ h₂ hne
    have b₁ := (CIA402_MP_table_bounds id₁ h₁).2.2
    have b₂ := (CIA402_MP_table_bounds id₂ h₂).2.2
    omega
  · intro id hid k hk0 hk8 hmem
    have b₁ := (CIA402_MP_table_bounds id hid).2.2
    have b₂ := (CIA402_MP_table_bounds (id + k) hmem).2.2
    omega

/-- C9: the channel derivation of modparam identifiers is invertible. For every
identifier `id` of the `CIA402_MP_*` table and every channel index `c < 8`, the
derived identifier `d = id + c` determines both: `id = d - d mod 8` and
`c = d mod 8`; hence `(id, c) ↦ id + c` is injective on the table times
`{0..7}`. -/
theorem channelized_id_invertible :
    (∀ id ∈ CIA402_MP_table, ∀ c, c < 8 →
      id = channelized_id id c - channelized_id id c % 8 ∧ c = channelized_id id c % 8) ∧
    (∀ id₁ ∈ CIA402_MP_table, ∀ id₂ ∈ CIA402_MP_table, ∀ c₁ c₂, c₁ < 8 → c₂ < 8 →
      channelized_id id₁ c₁ = channelized_id id₂ c₂ → id₁ = id₂ ∧ c₁ = c₂) := by
  constructor
  · intro id hid c hc
    have hb := (CIA402_MP_table_bounds id hid).2.2
    unfold channelized_id
    omega
  · intro id₁ h₁ id₂ h₂ c₁ c₂ hc₁ hc₂ h
    exact channelized_id_inj id₁ id₂ c₁ c₂ (CIA402_MP_table_bounds id₁ h₁).2.2
      (CIA402_MP_table_bounds id₂ h₂).2.2 hc₁ hc₂ h

/-! ## lcec_ax5200_init -/

theorem lcec_ax5200_init_syncs_eq (hal_data : lcec_ax5200_data_t) :
    (lcec_ax5200_init_syncs hal_data).syncs =
      [{ dir := .EC_DIR_OUTPUT, pdos := [], watchdog_mode := .EC_WD_DEFAULT },
       { dir := .EC_DIR_INPUT, pdos := [], watchdog_mode := .EC_WD_DEFAULT },
       { dir := .EC_DIR_OUTPUT,
         pdos :=
          [{ index := 0x0018,
             entries := [{ index := 0x0086, subindex := 1, bit_length := 16 },
                         { index := 0x0018, subindex := 1, bit_length := 32 }] },
           { index := 0x1018,
             entries := [{ index := 0x0086, subindex := 2, bit_length := 16 },
                         { index := 0x0018, subindex := 2, bit_length := 32 }] }],
         watchdog_mode := .EC_WD_DEFAULT },
       { dir := .EC_DIR_INPUT,
         pdos :=
          [{ index := 0x0010,
             entries :=
              [{ index := 0x0087, subindex := 1, bit_length := 16 },
               { index := 0x0033, subindex := 1, bit_length := 32 },
               { index := 0x0054, subindex := 1, bit_length := 16 }] ++
              (if (hal_data.chans 0).fb2_enabled then
                [{ index := 0x0035, subindex := 1, bit_length := 32 }] else []) ++
              (if (hal_data.chans 0).diag_enabled then
                [{ index := 0x0186, subindex := 1, bit_length := 32 }] else []) },
           { index := 0x1010,
             entries :=
              [{ index := 0x0087, subindex := 2, bit_length := 16 },
               { index := 0x0033, subindex := 2, bit_length := 32 },
               { index := 0x0054, subindex := 2, bit_length := 16 }] ++
              (if (hal_data.chans 1).fb2_enabled then
                [{ index := 0x0035, subindex := 2, bit_length := 32 }] else []) ++
              (if (hal_data.chans 1).diag_enabled then
                [{ index := 0x0186, subindex := 2, bit_length := 32 }] else []) }],
         watchdog_mode := .EC_WD_DEFAULT }] := by
  unfold lcec_ax5200_init_syncs
  simp only [lcec_syncs_init]
  cases (hal_data.chans 0).fb2_enabled <;> cases (hal_data.chans 0).diag_enabled <;>
    cases (hal_data.chans 1).fb2_enabled <;> cases (hal_data.chans 1).diag_enabled <;>
    decide

theorem lcec_ax5200_init_chans_ok
    (lcec_class_ax5_init : Nat → lcec_class_ax5_chan_t → Int × lcec_class_ax5_chan_t)
    (h0 : (lcec_class_ax5_init 0 ax5_chan_zero).1 = 0)
    (h1 : (lcec_class_ax5_init 1 ax5_chan_zero).1 = 0) :
    (lcec_ax5200_init_chans lcec_class_ax5_init (List.range LCEC_AX5200_CHANS)
        (fun _ => ax5_chan_zero)).1 = 0 ∧
    (lcec_ax5200_init_chans lcec_class_ax5_init (List.range LCEC_AX5200_CHANS)
        (fun _ => ax5_chan_zero)).2 0 = (lcec_class_ax5_init 0 ax5_chan_zero).2 ∧
    (lcec_ax5200_init_chans lcec_class_ax5_init (List.range LCEC_AX5200_CHANS)
        (fun _ => ax5_chan_zero)).2 1 = (lcec_class_ax5_init 1 ax5_chan_zero).2 := by
  have hrange : List.range LCEC_AX5200_CHANS = [0, 1] := by decide
  rw [hrange]
  simp [lcec_ax5200_init_chans, h0, h1]

/-- C10: `lcec_ax5200_init` appends the sync descriptor in a fixed order that
depends only on the enable flags. When the allocation and both channel
initialisations succeed, the function returns 0 and `sync_info` holds four sync
managers, output, input, output, input; the first two are empty; the third
holds the PDO groups `0x0018` and `0x1018`, each with the entries
`(0x0086, c+1, 16)`, `(0x0018, c+1, 32)`; the fourth holds the PDO groups
`0x0010` and `0x1010`, each with status word `(0x0087, c+1, 16)`, position
feedback `(0x0033, c+1, 32)`, torque feedback `(0x0054, c+1, 16)`, then
`(0x0035, c+1, 32)` exactly when `chans[c].fb2_enabled`, then
`(0x0186, c+1, 32)` exactly when `chans[c].diag_enabled`, and nothing else. -/
theorem lcec_ax5200_init_descriptor
    (lcec_class_ax5_init : Nat → lcec_class_ax5_chan_t → Int × lcec_class_ax5_chan_t)
    (slave : lcec_slave (Option lcec_ax5200_data_t))
    (h0 : (lcec_class_ax5_init 0 ax5_chan_zero).1 = 0)
    (h1 : (lcec_class_ax5_init 1 ax5_chan_zero).1 = 0) :
    (lcec_ax5200_init true lcec_class_ax5_init slave).1 = 0 ∧
    (lcec_ax5200_init true lcec_class_ax5_init slave).2.sync_info = some
      [{ dir := .EC_DIR_OUTPUT, pdos := [], watchdog_mode := .EC_WD_DEFAULT },
       { dir := .EC_DIR_INPUT, pdos := [], watchdog_mode := .EC_WD_DEFAULT },
       { dir := .EC_DIR_OUTPUT,
         pdos :=
          [{ index := 0x0018,
             entries := [{ index := 0x0086, subindex := 1, bit_length := 16 },
                         { index := 0x0018, subindex := 1, bit_length := 32 }] },
           { index := 0x1018,
             entries := [{ index := 0x0086, subindex := 2, bit_length := 16 },
                         { index := 0x0018, subindex := 2, bit_length := 32 }] }],
         watchdog_mode := .EC_WD_DEFAULT },
       { dir := .EC_DIR_INPUT,
         pdos :=
          [{ index := 0x0010,
             entries :=
              [{ index := 0x0087, subindex := 1, bit_length := 16 },
               { index := 0x0033, subindex := 1, bit_length := 32 },
               { index := 0x0054, subindex := 1, bit_length := 16 }] ++
              (if (lcec_class_ax5_init 0 ax5_chan_zero).2.fb2_enabled then
                [{ index := 0x0035, subindex := 1, bit_length := 32 }] else []) ++
              (if (lcec_class_ax5_init 0 ax5_chan_zero).2.diag_enabled then
                [{ index := 0x0186, subindex := 1, bit_length := 32 }] else []) },
           { index := 0x1010,
             entries :=
              [{ index := 0x0087, subindex := 2, bit_length := 16 },
               { index := 0x0033, subindex := 2, bit_length := 32 },
               { index := 0x0054, subindex := 2, bit_length := 16 }] ++
              (if (lcec_class_ax5_init 1 ax5_chan_zero).2.fb2_enabled then
                [{ index := 0x0035, subindex := 2, bit_length := 32 }] else []) ++
              (if (lcec_class_ax5_init 1 ax5_chan_zero).2.diag_enabled then
                [{ index := 0x0186, subindex := 2, bit_length := 32 }] else []) }],
         watchdog_mode := .EC_WD_DEFAULT }] := by
  obtain ⟨hr, hc0, hc1⟩ := lcec_ax5200_init_chans_ok lcec_class_ax5_init h0 h1
  have hr2 : (lcec_ax5200_init_chans lcec_class_ax5_init (List.range LCEC_AX5200_CHANS)
      (fun _ => ({ fb2_enabled := false, diag_enabled := false } : lcec_class_ax5_chan_t))).1
      = 0 := hr
  refine ⟨?_, ?_⟩
  · unfold lcec_ax5200_init
    simp [hr2]
  · have hs : (lcec_ax5200_init true lcec_class_ax5_init slave).2.sync_info = some
        (lcec_ax5200_init_syncs
          { syncs := { syncs := [] },
            chans := (lcec_ax5200_init_chans lcec_class_ax5_init
              (List.range LCEC_AX5200_CHANS) (fun _ => ax5_chan_zero)).2 }).syncs := by
      unfold lcec_ax5200_init
      simp [hr2]
      rfl
    rw [hs, lcec_ax5200_init_syncs_eq]
    dsimp only
    rw [hc0, hc1]

theorem lcec_ax5200_init_descriptor_witness :
    (ax5_init_example 0 ax5_chan_zero).1 = 0 ∧
    (ax5_init_example 1 ax5_chan_zero).1 = 0 ∧
    (lcec_ax5200_init true ax5_init_example ax5200_slave_example).1 = 0 ∧
    (lcec_ax5200_init true ax5_init_example ax5200_slave_example).2.sync_info = some
      [{ dir := .EC_DIR_OUTPUT, pdos := [], watchdog_mode := .EC_WD_DEFAULT },
       { dir := .EC_DIR_INPUT, pdos := [], watchdog_mode := .EC_WD_DEFAULT },
       { dir := .EC_DIR_OUTPUT,
         pdos :=
          [{ index := 0x0018,
             entries := [{ index := 0x0086, subindex := 1, bit_length := 16 },
                         { index := 0x0018, subindex := 1, bit_length := 32 }] },
           { index := 0x1018,
             entries := [{ index := 0x0086, subindex := 2, bit_length := 16 },
                         { index := 0x0018, subindex := 2, bit_length := 32 }] }],
         watchdog_mode := .EC_WD_DEFAULT },
       { dir := .EC_DIR_INPUT,
         pdos :=
          [{ index := 0x0010,
             entries :=
              [{ index := 0x0087, subindex := 1, bit_length := 16 },
               { index := 0x0033, subindex := 1, bit_length := 32 },
               { index := 0x0054, subindex := 1, bit_length := 16 }] ++
              (if (ax5_init_example 0 ax5_chan_zero).2.fb2_enabled then
                [{ index := 0x0035, subindex := 1, bit_length := 32 }] else []) ++
              (if (ax5_init_example 0 ax5_chan_zero).2.diag_enabled then
                [{ index := 0x0186, subindex := 1, bit_length := 32 }] else []) },
           { index := 0x1010,
             entries :=
              [{ index := 0x0087, subindex := 2, bit_length := 16 },
               { index := 0x0033, subindex := 2, bit_length := 32 },
               { index := 0x0054, subindex := 2, bit_length := 16 }] ++
              (if (ax5_init_example 1 ax5_chan_zero).2.fb2_enabled then
                [{ index := 0x0035, subindex := 2, bit_length := 32 }] else []) ++
              (if (ax5_init_example 1 ax5_chan_zero).2.diag_enabled then
                [{ index := 0x0186, subindex := 2, bit_length := 32 }] else []) }],
         watchdog_mode := .EC_WD_DEFAULT }] :=
  ⟨rfl, rfl, lcec_ax5200_init_descriptor ax5_init_example ax5200_slave_example rfl rfl⟩

theorem lcec_ax5200_init_ok
    (lcec_class_ax5_init : Nat → lcec_class_ax5_chan_t → Int × lcec_class_ax5_chan_t)
    (slave : lcec_slave (Option lcec_ax5200_data_t))
    (h0 : (lcec_class_ax5_init 0 ax5_chan_zero).1 = 0)
    (h1 : (lcec_class_ax5_init 1 ax5_chan_zero).1 = 0) :
    (lcec_ax5200_init true lcec_class_ax5_init slave).1 = 0 ∧
    (lcec_ax5200_init true lcec_class_ax5_init slave).2.sync_info = some
      (lcec_ax5200_init_syncs
        { syncs := { syncs := [] },
          chans := fun i =>
            if i = 0 then (lcec_class_ax5_init 0 ax5_chan_zero).2
            else if i = 1 then (lcec_class_ax5_init 1 ax5_chan_zero).2
            else ax5_chan_zero }).syncs := by
  obtain ⟨hr, hc0, hc1⟩ := lcec_ax5200_init_chans_ok lcec_class_ax5_init h0 h1
  have hr2 : (lcec_ax5200_init_chans lcec_class_ax5_init (List.range LCEC_AX5200_CHANS)
      (fun _ => ({ fb2_enabled := false, diag_enabled := false } : lcec_class_ax5_chan_t))).1
      = 0 := hr
  refine ⟨?_, ?_⟩
  · unfold lcec_ax5200_init
    simp [hr2]
  · have hs : (lcec_ax5200_init true lcec_class_ax5_init slave).2.sync_info = some
        (lcec_ax5200_init_syncs
          { syncs := { syncs := [] },
            chans := (lcec_ax5200_init_chans lcec_class_ax5_init
              (List.range LCEC_AX5200_CHANS) (fun _ => ax5_chan_zero)).2 }).syncs := by
      unfold lcec_ax5200_init
      simp [hr2]
      rfl
    rw [hs, lcec_ax5200_init_syncs_eq, lcec_ax5200_init_syncs_eq]
    dsimp only
    rw [hc0, hc1]
    rfl

theorem ax5200_entries_distinct (fb2_0 diag_0 fb2_1 diag_1 : Bool) :
    (sync_entries (lcec_ax5200_init_syncs
      { syncs := { syncs := [] },
        chans := fun i =>
          if i = 0 then { fb2_enabled := fb2_0, diag_enabled := diag_0 }
          else if i = 1 then { fb2_enabled := fb2_1, diag_enabled := diag_1 }
          else ax5_chan_zero }).syncs).Nodup := by
  rw [lcec_ax5200_init_syncs_eq]
  cases fb2_0 <;> cases diag_0 <;> cases fb2_1 <;> cases diag_1 <;> decide

theorem ax5200_chan_entries_disjoint (fb2_0 diag_0 fb2_1 diag_1 : Bool) :
    (∀ e ∈ ax5200_chan_entries (lcec_ax5200_init_syncs
        { syncs := { syncs := [] },
          chans := fun i =>
            if i = 0 then { fb2_enabled := fb2_0, diag_enabled := diag_0 }
            else if i = 1 then { fb2_enabled := fb2_1, diag_enabled := diag_1 }
            else ax5_chan_zero }).syncs 0,
      e ∉ ax5200_chan_entries (lcec_ax5200_init_syncs
        { syncs := { syncs := [] },
          chans := fun i =>
            if i = 0 then { fb2_enabled := fb2_0, diag_enabled := diag_0 }
            else if i = 1 then { fb2_enabled := fb2_1, diag_enabled := diag_1 }
            else ax5_chan_zero }).syncs 1) ∧
    (∀ e ∈ sync_entries (lcec_ax5200_init_syncs
        { syncs := { syncs := [] },
          chans := fun i =>
            if i = 0 then { fb2_enabled := fb2_0, diag_enabled := diag_0 }
            else if i = 1 then { fb2_enabled := fb2_1, diag_enabled := diag_1 }
            else ax5_chan_zero }).syncs,
      e ∈ ax5200_chan_entries (lcec_ax5200_init_syncs
        { syncs := { syncs := [] },
          chans := fun i =>
            if i = 0 then { fb2_enabled := fb2_0, diag_enabled := diag_0 }
            else if i = 1 then { fb2_enabled := fb2_1, diag_enabled := diag_1 }
            else ax5_chan_zero }).syncs 0 ∨
      e ∈ ax5200_chan_entries (lcec_ax5200_init_syncs
        { syncs := { syncs := [] },
          chans := fun i =>
            if i = 0 then { fb2_enabled := fb2_0, diag_enabled := diag_0 }
            else if i = 1 then { fb2_enabled := fb2_1, diag_enabled := diag_1 }
            else ax5_chan_zero }).syncs 1) := by
  rw [lcec_ax5200_init_syncs_eq]
  cases fb2_0 <;> cases diag_0 <;> cases fb2_1 <;> cases diag_1 <;> decide

/-- C11: in the descriptor built by `lcec_ax5200_init`, whatever the four
flags `fb2_enabled`, `diag_enabled` of the channels 0 and 1, no protocol entry
`(index, subindex)` is appended twice, and no entry appended for channel 0 is
appended for channel 1; every entry of the descriptor belongs to one of the two
channels. -/
theorem lcec_ax5200_init_entries_distinct
    (lcec_class_ax5_init : Nat → lcec_class_ax5_chan_t → Int × lcec_class_ax5_chan_t)
    (slave : lcec_slave (Option lcec_ax5200_data_t))
    (h0 : (lcec_class_ax5_init 0 ax5_chan_zero).1 = 0)
    (h1 : (lcec_class_ax5_init 1 ax5_chan_zero).1 = 0) :
    ∃ syncs, (lcec_ax5200_init true lcec_class_ax5_init slave).2.sync_info = some syncs ∧
      (sync_entries syncs).Nodup ∧
      (∀ e ∈ ax5200_chan_entries syncs 0, e ∉ ax5200_chan_entries syncs 1) ∧
      (∀ e ∈ sync_entries syncs,
        e ∈ ax5200_chan_entries syncs 0 ∨ e ∈ ax5200_chan_entries syncs 1) := by
  refine ⟨_, (lcec_ax5200_init_ok lcec_class_ax5_init slave h0 h1).2, ?_⟩
  generalize (lcec_class_ax5_init 0 ax5_chan_zero).2 = c0
  generalize (lcec_class_ax5_init 1 ax5_chan_zero).2 = c1
  obtain ⟨fb2_0, diag_0⟩ := c0
  obtain ⟨fb2_1, diag_1⟩ := c1
  exact ⟨ax5200_entries_distinct fb2_0 diag_0 fb2_1 diag_1,
    ax5200_chan_entries_disjoint fb2_0 diag_0 fb2_1 diag_1⟩

theorem lcec_ax5200_init_entries_distinct_witness :
    (ax5_init_example 0 ax5_chan_zero).1 = 0 ∧
    (ax5_init_example 1 ax5_chan_zero).1 = 0 ∧
    ∃ syncs, (lcec_ax5200_init true ax5_init_example ax5200_slave_example).2.sync_info
        = some syncs ∧
      (sync_entries syncs).Nodup ∧
      (∀ e ∈ ax5200_chan_entries syncs 0, e ∉ ax5200_chan_entries syncs 1) ∧
      (∀ e ∈ sync_entries syncs,
        e ∈ ax5200_chan_entries syncs 0 ∨ e ∈ ax5200_chan_entries syncs 1) :=
  ⟨rfl, rfl, lcec_ax5200_init_entries_distinct ax5_init_example ax5200_slave_example rfl rfl⟩

/-! ## Device bring-up -/

/-- C12 (as amended): a failed bring-up is reported, not rolled back. Each of
`lcec_el95xx_init`, `lcec_el2904_init`, `lcec_ex260_init`, `lcec_ax5200_init`
installs its cyclic callbacks in `proc_read` / `proc_write` before it
allocates, and they are installed on every return, error or not. When
`hal_malloc` fails the function returns `-EIO`, which is not 0, and `hal_data`
is as before the call. When the allocation succeeds and a later step (pin
export, channel init) fails, `hal_data` is already bound to the newly
allocated record; `lcec_ax5200_init` leaves `sync_info` as before the call on
every error return. -/
theorem lcec_init_failure_state :
    (∀ (hal_malloc_ok : Bool) (lcec_pin_newf_list : Int)
        (slave : lcec_slave (Option lcec_el95xx_data_t)),
      (lcec_el95xx_init hal_malloc_ok lcec_pin_newf_list slave).slave.proc_read =
        some .lcec_el95xx_read ∧
      (lcec_el95xx_init hal_malloc_ok lcec_pin_newf_list slave).slave.proc_write =
        slave.proc_write ∧
      (hal_malloc_ok = false →
        (lcec_el95xx_init hal_malloc_ok lcec_pin_newf_list slave).err = - EIO ∧
        (lcec_el95xx_init hal_malloc_ok lcec_pin_newf_list slave).err ≠ 0 ∧
        (lcec_el95xx_init hal_malloc_ok lcec_pin_newf_list slave).slave.hal_data =
          slave.hal_data) ∧
      (hal_malloc_ok = true →
        (lcec_el95xx_init hal_malloc_ok lcec_pin_newf_list slave).slave.hal_data =
          some lcec_el95xx_data_zero)) ∧
    (∀ (hal_malloc_ok : Bool) (lcec_pin_newf_list : Int)
        (slave : lcec_slave (Option lcec_el2904_data_t)),
      (lcec_el2904_init hal_malloc_ok lcec_pin_newf_list slave).slave.proc_read =
        some .lcec_el2904_read ∧
      (lcec_el2904_init hal_malloc_ok lcec_pin_newf_list slave).slave.proc_write =
        some .lcec_el2904_write ∧
      (hal_malloc_ok = false →
        (lcec_el2904_init hal_malloc_ok lcec_pin_newf_list slave).err = - EIO ∧
        (lcec_el2904_init hal_malloc_ok lcec_pin_newf_list slave).err ≠ 0 ∧
        (lcec_el2904_init hal_malloc_ok lcec_pin_newf_list slave).slave.hal_data =
          slave.hal_data) ∧
      (hal_malloc_ok = true →
        (lcec_el2904_init hal_malloc_ok lcec_pin_newf_list slave).slave.hal_data =
          some lcec_el2904_data_zero)) ∧
    (∀ (hal_malloc_ok : Bool) (lcec_pin_newf_list : Nat → Int)
        (slave : lcec_slave (Option (Nat → lcec_ex260_pin_t))),
      (lcec_ex260_init hal_malloc_ok lcec_pin_newf_list slave).slave.proc_read =
        slave.proc_read ∧
      (lcec_ex260_init hal_malloc_ok lcec_pin_newf_list slave).slave.proc_write =
        some .lcec_ex260_write ∧
      (hal_malloc_ok = false →
        (lcec_ex260_init hal_malloc_ok lcec_pin_newf_list slave).err = - EIO ∧
        (lcec_ex260_init hal_malloc_ok lcec_pin_newf_list slave).err ≠ 0 ∧
        (lcec_ex260_init hal_malloc_ok lcec_pin_newf_list slave).slave.hal_data =
          slave.hal_data) ∧
      (hal_malloc_ok = true →
        (lcec_ex260_init hal_malloc_ok lcec_pin_newf_list slave).slave.hal_data =
          some (fun _ => lcec_ex260_pin_zero))) ∧
    (∀ (hal_malloc_ok : Bool)
        (lcec_class_ax5_init : Nat → lcec_class_ax5_chan_t → Int × lcec_class_ax5_chan_t)
        (slave : lcec_slave (Option lcec_ax5200_data_t)),
      (lcec_ax5200_init hal_malloc_ok lcec_class_ax5_init slave).2.proc_read =
        some .lcec_ax5200_read ∧
      (lcec_ax5200_init hal_malloc_ok lcec_class_ax5_init slave).2.proc_write =
        some .lcec_ax5200_write ∧
      (hal_malloc_ok = false →
        (lcec_ax5200_init hal_malloc_ok lcec_class_ax5_init slave).1 = - EIO ∧
        (lcec_ax5200_init hal_malloc_ok lcec_class_ax5_init slave).1 ≠ 0 ∧
        (lcec_ax5200_init hal_malloc_ok lcec_class_ax5_init slave).2.hal_data =
          slave.hal_data) ∧
      (hal_malloc_ok = true →
        (lcec_ax5200_init hal_malloc_ok lcec_class_ax5_init slave).2.hal_data ≠ none) ∧
      ((lcec_ax5200_init hal_malloc_ok lcec_class_ax5_init slave).1 ≠ 0 →
        (lcec_ax5200_init hal_malloc_ok lcec_class_ax5_init slave).2.sync_info =
          slave.sync_info)) := by
  refine ⟨?_, ?_, ?_, ?_⟩
  · intro ok pin slave
    unfold lcec_el95xx_init
    cases ok
    · simp [ EIO]
    · by_cases hp : pin = 0 <;> simp [hp]
  · intro ok pin slave
    unfold lcec_el2904_init
    cases ok
    · simp [ EIO]
    · by_cases hp : pin = 0 <;> simp [hp]
  · intro ok pin slave
    unfold lcec_ex260_init
    cases ok
    · simp [ EIO]
    · by_cases hp : (lcec_ex260_init_pins pin (List.range slave.flags) [] 0).1 = 0 <;>
        simp [hp]
  · intro ok ci slave
    unfold lcec_ax5200_init
    cases ok
    · simp [ EIO]
    · by_cases hp : (lcec_ax5200_init_chans ci (List.range LCEC_AX5200_CHANS)
          (fun _ => ({ fb2_enabled := false, diag_enabled := false } :
            lcec_class_ax5_chan_t))).1 = 0 <;> simp [hp]

/-- C12, counterexample to the claim as stated: `lcec_el95xx_init` on a slave
without callbacks returns the non-zero error `-EIO` when `hal_malloc` fails,
yet `proc_read` then holds `lcec_el95xx_read` and is no longer as before the
call; and when the allocation succeeds and the pin export fails with `-1`, the
error is returned with `hal_data` no longer `NULL`. -/
theorem lcec_init_failure_state_counterexample :
    (lcec_el95xx_init false 0 el95xx_slave_example).err ≠ 0 ∧
    (lcec_el95xx_init false 0 el95xx_slave_example).slave.proc_read ≠
      el95xx_slave_example.proc_read ∧
    (lcec_el95xx_init true (-1) el95xx_slave_example).err ≠ 0 ∧
    (lcec_el95xx_init true (-1) el95xx_slave_example).slave.hal_data ≠
      el95xx_slave_example.hal_data := by
  decide

/-- C13 (as amended): `lcec_el95xx_init` surfaces every bring-up error. It
returns `-EIO` if `hal_malloc` returns `NULL`, and then registers no PDO entry
and exports no pin; otherwise it registers its two PDO entries, calls
`lcec_pin_newf_list` once and returns exactly its result, which may itself be
`-EIO`. So it returns 0 if and only if both the allocation and the pin export
succeed, and it returns `-EIO` if and only if the allocation fails or the pin
export returns `-EIO`. -/
theorem lcec_el95xx_init_result (hal_malloc_ok : Bool) (lcec_pin_newf_list : Int)
    (slave : lcec_slave (Option lcec_el95xx_data_t)) :
    (hal_malloc_ok = false →
      (lcec_el95xx_init hal_malloc_ok lcec_pin_newf_list slave).err = - EIO ∧
      (lcec_el95xx_init hal_malloc_ok lcec_pin_newf_list slave).pdo_init = [] ∧
      (lcec_el95xx_init hal_malloc_ok lcec_pin_newf_list slave).pin_newf_list = 0) ∧
    (hal_malloc_ok = true →
      (lcec_el95xx_init hal_malloc_ok lcec_pin_newf_list slave).err = lcec_pin_newf_list ∧
      (lcec_el95xx_init hal_malloc_ok lcec_pin_newf_list slave).pdo_init =
        [(0x6000, 0x01), (0x6000, 0x02)] ∧
      (lcec_el95xx_init hal_malloc_ok lcec_pin_newf_list slave).pin_newf_list = 1) ∧
    ((lcec_el95xx_init hal_malloc_ok lcec_pin_newf_list slave).err = 0 ↔
      hal_malloc_ok = true ∧ lcec_pin_newf_list = 0) ∧
    ((lcec_el95xx_init hal_malloc_ok lcec_pin_newf_list slave).err = - EIO ↔
      hal_malloc_ok = false ∨ lcec_pin_newf_list = - EIO) := by
  unfold lcec_el95xx_init
  cases hal_malloc_ok
  · simp [ EIO]
  · by_cases hp : lcec_pin_newf_list = 0
    · simp [hp, EIO]
    · simp [hp]

/-- C13, counterexample to the claim as stated: when `hal_malloc` succeeds and
`lcec_pin_newf_list` returns `-EIO`, `lcec_el95xx_init` returns `-EIO` although
`hal_malloc` did not return `NULL`, after registering two PDO entries and
calling the pin export. -/
theorem lcec_el95xx_init_result_counterexample :
    (lcec_el95xx_init true (- EIO) el95xx_slave_example).err = - EIO ∧
    (lcec_el95xx_init true (- EIO) el95xx_slave_example).pdo_init =
      [(0x6000, 0x01), (0x6000, 0x02)] ∧
    (lcec_el95xx_init true (- EIO) el95xx_slave_example).pin_newf_list = 1 := by
  decide

/-! ## The cyclic functions and the operational flag -/

/-- C14 (as amended): `lcec_el2904_read` does not test the operational flag.
For every process image and every slave state, also when `state.operational`
is false, after the call each of the ten input pins holds the value extracted
from the process image left by the FSoE copy step: the command pins by
`EC_READ_U8`, the CRC and connection-id pins by `EC_READ_U16`, the four
`fsoe_out_k` pins by `EC_READ_BIT`. -/
theorem lcec_el2904_read_any_state
    (copy_fsoe_data : lcec_slave lcec_el2904_data_t → Nat → Nat → ProcessData)
    (slave : lcec_slave lcec_el2904_data_t) :
    (lcec_el2904_read copy_fsoe_data slave).hal_data.fsoe_slave_cmd =
      EC_READ_U8 (lcec_el2904_pd_after_copy copy_fsoe_data slave)
        slave.hal_data.fsoe_slave_cmd_os ∧
    (lcec_el2904_read copy_fsoe_data slave).hal_data.fsoe_slave_crc =
      EC_READ_U16 (lcec_el2904_pd_after_copy copy_fsoe_data slave)
        slave.hal_data.fsoe_slave_crc_os ∧
    (lcec_el2904_read copy_fsoe_data slave).hal_data.fsoe_slave_connid =
      EC_READ_U16 (lcec_el2904_pd_after_copy copy_fsoe_data slave)
        slave.hal_data.fsoe_slave_connid_os ∧
    (lcec_el2904_read copy_fsoe_data slave).hal_data.fsoe_master_cmd =
      EC_READ_U8 (lcec_el2904_pd_after_copy copy_fsoe_data slave)
        slave.hal_data.fsoe_master_cmd_os ∧
    (lcec_el2904_read copy_fsoe_data slave).hal_data.fsoe_master_crc =
      EC_READ_U16 (lcec_el2904_pd_after_copy copy_fsoe_data slave)
        slave.hal_data.fsoe_master_crc_os ∧
    (lcec_el2904_read copy_fsoe_data slave).hal_data.fsoe_master_connid =
      EC_READ_U16 (lcec_el2904_pd_after_copy copy_fsoe_data slave)
        slave.hal_data.fsoe_master_connid_os ∧
    (lcec_el2904_read copy_fsoe_data slave).hal_data.fsoe_out_0 =
      EC_READ_BIT (lcec_el2904_pd_after_copy copy_fsoe_data slave)
        slave.hal_data.fsoe_out_0_os slave.hal_data.fsoe_out_0_bp ∧
    (lcec_el2904_read copy_fsoe_data slave).hal_data.fsoe_out_1 =
      EC_READ_BIT (lcec_el2904_pd_after_copy copy_fsoe_data slave)
        slave.hal_data.fsoe_out_1_os slave.hal_data.fsoe_out_1_bp ∧
    (lcec_el2904_read copy_fsoe_data slave).hal_data.fsoe_out_2 =
      EC_READ_BIT (lcec_el2904_pd_after_copy copy_fsoe_data slave)
        slave.hal_data.fsoe_out_2_os slave.hal_data.fsoe_out_2_bp ∧
    (lcec_el2904_read copy_fsoe_data slave).hal_data.fsoe_out_3 =
      EC_READ_BIT (lcec_el2904_pd_after_copy copy_fsoe_data slave)
        slave.hal_data.fsoe_out_3_os slave.hal_data.fsoe_out_3_bp ∧
    (lcec_el2904_read copy_fsoe_data slave).state = slave.state :=
  ⟨rfl, rfl, rfl, rfl, rfl, rfl, rfl, rfl, rfl, rfl, rfl⟩

/-- C14, counterexample to the claim as stated: on a slave that is not
operational, with all input pins 0 and a copy step that leaves the process
image alone, `lcec_el2904_read` loads `fsoe_slave_cmd` with the byte `0xCD` at
offset 8, `fsoe_master_crc` with the little-endian word `0x3914` at offset 3
and `fsoe_out_1` with bit 1 of the byte `0xCA` at offset 1. -/
theorem lcec_el2904_read_any_state_counterexample :
    (slave_example false 0 el2904_example).state.operational = false ∧
    (slave_example false 0 el2904_example).hal_data.fsoe_slave_cmd = 0 ∧
    (lcec_el2904_read copy_fsoe_data_example
      (slave_example false 0 el2904_example)).hal_data.fsoe_slave_cmd = 0xCD ∧
    (slave_example false 0 el2904_example).hal_data.fsoe_master_crc = 0 ∧
    (lcec_el2904_read copy_fsoe_data_example
      (slave_example false 0 el2904_example)).hal_data.fsoe_master_crc = 0x3914 ∧
    (slave_example false 0 el2904_example).hal_data.fsoe_out_1 = 0 ∧
    (lcec_el2904_read copy_fsoe_data_example
      (slave_example false 0 el2904_example)).hal_data.fsoe_out_1 = 1 := by
  decide

/-- C15 (as amended): `lcec_ex260_write` runs only while the device is
operational. When `state.operational` is false it returns at once and the
process image, like the whole slave record, is as before the call, whatever
the pins hold. When the slave is operational it stores the packed solenoid
byte of every valve bank `i < slave->flags` at `pd[pin_i.pdo_os]`, and that
byte is there after the call provided no later bank has the same `pdo_os`. -/
theorem lcec_ex260_write_operational_only (slave : lcec_slave (Nat → lcec_ex260_pin_t)) :
    (slave.state.operational = false →
      lcec_ex260_write slave = slave ∧
      (lcec_ex260_write slave).process_data = slave.process_data) ∧
    (slave.state.operational = true →
      ∀ i, i < slave.flags →
        lcec_ex260_write_loop slave.hal_data slave.process_data (i + 1)
            (slave.hal_data i).pdo_os = toByte (lcec_ex260_s (slave.hal_data i)) ∧
        ((∀ j, i < j → j < slave.flags →
            (slave.hal_data j).pdo_os ≠ (slave.hal_data i).pdo_os) →
          (lcec_ex260_write slave).process_data (slave.hal_data i).pdo_os =
            toByte (lcec_ex260_s (slave.hal_data i)))) := by
  constructor
  · intro hop
    have h : lcec_ex260_write slave = slave := by
      unfold lcec_ex260_write
      simp [hop]
    rw [h]
    exact ⟨rfl, rfl⟩
  · intro hop i hi
    refine ⟨lcec_ex260_write_loop_succ_at slave.hal_data slave.process_data i, ?_⟩
    intro hlater
    have hw : (lcec_ex260_write slave).process_data =
        lcec_ex260_write_loop slave.hal_data slave.process_data slave.flags := by
      unfold lcec_ex260_write
      simp [hop]
    rw [hw]
    exact lcec_ex260_write_loop_keep slave.hal_data slave.process_data i slave.flags hi hlater

/-- C15, counterexample to the claim as stated: on a slave that is not
operational, with two banks at the separate offsets 4 and 5, after
`lcec_ex260_write` the byte at offset 4 is still the prior `0x39`, not the
packed byte `0x85` of bank 0, and the byte at offset 5 is still `0x5E`, not the
packed byte `0x02` of bank 1. -/
theorem lcec_ex260_write_operational_only_counterexample :
    (slave_example false 2 ex260_example).state.operational = false ∧
    (ex260_example 0).pdo_os = 4 ∧
    lcec_ex260_s (ex260_example 0) % 256 = 0x85 ∧
    ((lcec_ex260_write (slave_example false 2 ex260_example)).process_data 4).val = 0x39 ∧
    (ex260_example 1).pdo_os = 5 ∧
    lcec_ex260_s (ex260_example 1) % 256 = 0x02 ∧
    ((lcec_ex260_write (slave_example false 2 ex260_example)).process_data 5).val = 0x5E := by
  decide

/-! ## The CiA 402 feature resolver and channel registration -/

/-- C16: closure completeness of the feature resolver `lcec_cia402_enabled`. For
every option set, `enable_actual_position` and `enable_target_position` are set
whenever `enable_pp` or `enable_csp` is set, `enable_actual_velocity` and
`enable_target_velocity` are set whenever `enable_pv` or `enable_csv` is set,
and `enable_opmode` and `enable_opmode_display` are set whenever
`enable_opmode` is set. -/
theorem lcec_cia402_enabled_closure (csp_others csv_others : lcec_class_cia402_enabled_t)
    (opt : lcec_class_cia402_options_t) :
    (opt.enable_pp = true ∨ opt.enable_csp = true →
      (lcec_cia402_enabled csp_others csv_others opt).enable_actual_position = true ∧
      (lcec_cia402_enabled csp_others csv_others opt).enable_target_position = true) ∧
    (opt.enable_pv = true ∨ opt.enable_csv = true →
      (lcec_cia402_enabled csp_others csv_others opt).enable_actual_velocity = true ∧
      (lcec_cia402_enabled csp_others csv_others opt).enable_target_velocity = true) ∧
    (opt.enable_opmode = true →
      (lcec_cia402_enabled csp_others csv_others opt).enable_opmode = true ∧
      (lcec_cia402_enabled csp_others csv_others opt).enable_opmode_display = true) := by
  refine ⟨?_, ?_, ?_⟩
  · intro h
    have hb : (opt.enable_pp || opt.enable_csp) = true := by
      rcases h with h | h <;> simp [h]
    constructor <;> simp [lcec_cia402_enabled, hb]
  · intro h
    have hb : (opt.enable_pv || opt.enable_csv) = true := by
      rcases h with h | h <;> simp [h]
    constructor <;> simp [lcec_cia402_enabled, hb]
  · intro h
    constructor <;> simp [lcec_cia402_enabled, h]

theorem lcec_cia402_pins_complete (F : lcec_cia402_pin) : F ∈ lcec_cia402_pins := by
  cases F <;> decide

theorem lcec_cia402_pin_wanted_of_enable (enabled : lcec_class_cia402_enabled_t)
    (F : lcec_cia402_pin) (flag : lcec_class_cia402_enabled_t → Bool)
    (h : lcec_cia402_pin_enable F = some flag) :
    lcec_cia402_pin_wanted enabled F = flag enabled := by
  unfold lcec_cia402_pin_wanted
  rw [h]

theorem lcec_cia402_register_channel_pin_iff (hal_pin_new : lcec_cia402_pin → Option Nat)
    (lcec_pdo_init : lcec_cia402_pin → Nat)
    (csp_others csv_others : lcec_class_cia402_enabled_t)
    (opt : lcec_class_cia402_options_t) (ch : lcec_class_cia402_channel_t)
    (hch : lcec_cia402_register_channel hal_pin_new lcec_pdo_init csp_others csv_others opt =
      some ch) :
    ch.enabled = lcec_cia402_enabled csp_others csv_others opt ∧
    ∀ F flag, lcec_cia402_pin_enable F = some flag →
      (ch.pin F ≠ none ↔ flag ch.enabled = true) := by
  unfold lcec_cia402_register_channel at hch
  by_cases hcheck : (lcec_cia402_pins.all fun F =>
      !lcec_cia402_pin_wanted (lcec_cia402_enabled csp_others csv_others opt) F ||
        (hal_pin_new F).isSome) = true
  · simp only [hcheck, if_true, Option.some.injEq] at hch
    subst hch
    refine ⟨rfl, ?_⟩
    intro F flag hflag
    have hw := lcec_cia402_pin_wanted_of_enable
      (lcec_cia402_enabled csp_others csv_others opt) F flag hflag
    have hF := (List.all_eq_true.mp hcheck) F (lcec_cia402_pins_complete F)
    dsimp only
    rw [hw] at hF ⊢
    cases hfl : flag (lcec_cia402_enabled csp_others csv_others opt) with
    | false => simp
    | true =>
      rw [hfl] at hF
      cases hnew : hal_pin_new F with
      | none => rw [hnew] at hF; simp at hF
      | some a => simp
  · simp only [hcheck] at hch
    exact absurd hch (by simp)

/-- C18: enable/pin correspondence of a registered CiA 402 channel. For every
option set, when every handle allocation succeeds `lcec_cia402_register_channel`
returns a channel; and for every channel it returns, the enabled features of
the channel are those resolved from the option set, and for each of the 49 pin
fields of `lcec_class_cia402_channel_t` that have an enable flag in
`lcec_class_cia402_enabled_t` the pin handle is non-`NULL` if and only if the
flag of that name is set for the channel. -/
theorem lcec_cia402_register_channel_pins (hal_pin_new : lcec_cia402_pin → Option Nat)
    (lcec_pdo_init : lcec_cia402_pin → Nat)
    (csp_others csv_others : lcec_class_cia402_enabled_t)
    (opt : lcec_class_cia402_options_t) :
    ((∀ F, hal_pin_new F ≠ none) →
      ∃ ch, lcec_cia402_register_channel hal_pin_new lcec_pdo_init csp_others csv_others opt =
        some ch) ∧
    (∀ ch, lcec_cia402_register_channel hal_pin_new lcec_pdo_init csp_others csv_others opt =
        some ch →
      ch.enabled = lcec_cia402_enabled csp_others csv_others opt ∧
      (ch.pin .opmode ≠ none ↔ ch.enabled.enable_opmode = true) ∧
      (ch.pin .home_method ≠ none ↔ ch.enabled.enable_home_method = true) ∧
      (ch.pin .motion_profile ≠ none ↔ ch.enabled.enable_motion_profile = true) ∧
      (ch.pin .target_position ≠ none ↔ ch.enabled.enable_target_position = true) ∧
      (ch.pin .target_torque ≠ none ↔ ch.enabled.enable_target_torque = true) ∧
      (ch.pin .target_velocity ≠ none ↔ ch.enabled.enable_target_velocity = true) ∧
      (ch.pin .target_vl ≠ none ↔ ch.enabled.enable_target_vl = true) ∧
      (ch.pin .torque_profile_type ≠ none ↔ ch.enabled.enable_torque_profile_type = true) ∧
      (ch.pin .velocity_sensor_selector ≠ none ↔ ch.enabled.enable_velocity_sensor_selector = true) ∧
      (ch.pin .vl_maximum ≠ none ↔ ch.enabled.enable_vl_maximum = true) ∧
      (ch.pin .vl_minimum ≠ none ↔ ch.enabled.enable_vl_minimum = true) ∧
      (ch.pin .following_error_timeout ≠ none ↔ ch.enabled.enable_following_error_timeout = true) ∧
      (ch.pin .following_error_window ≠ none ↔ ch.enabled.enable_following_error_window = true) ∧
      (ch.pin .home_accel ≠ none ↔ ch.enabled.enable_home_accel = true) ∧
      (ch.pin .home_velocity_fast ≠ none ↔ ch.enabled.enable_home_velocity_fast = true) ∧
      (ch.pin .home_velocity_slow ≠ none ↔ ch.enabled.enable_home_velocity_slow = true) ∧
      (ch.pin .interpolation_time_period ≠ none ↔ ch.enabled.enable_interpolation_time_period = true) ∧
      (ch.pin .maximum_acceleration ≠ none ↔ ch.enabled.enable_maximum_acceleration = true) ∧
      (ch.pin .maximum_current ≠ none ↔ ch.enabled.enable_maximum_current = true) ∧
      (ch.pin .maximum_deceleration ≠ none ↔ ch.enabled.enable_maximum_deceleration = true) ∧
      (ch.pin .maximum_motor_rpm ≠ none ↔ ch.enabled.enable_maximum_motor_rpm = true) ∧
      (ch.pin .maximum_torque ≠ none ↔ ch.enabled.enable_maximum_torque = true) ∧
      (ch.pin .motor_rated_current ≠ none ↔ ch.enabled.enable_motor_rated_current = true) ∧
      (ch.pin .motor_rated_torque ≠ none ↔ ch.enabled.enable_motor_rated_torque = true) ∧
      (ch.pin .polarity ≠ none ↔ ch.enabled.enable_polarity = true) ∧
      (ch.pin .profile_accel ≠ none ↔ ch.enabled.enable_profile_accel = true) ∧
      (ch.pin .profile_decel ≠ none ↔ ch.enabled.enable_profile_decel = true) ∧
      (ch.pin .profile_end_velocity ≠ none ↔ ch.enabled.enable_profile_end_velocity = true) ∧
      (ch.pin .profile_max_velocity ≠ none ↔ ch.enabled.enable_profile_max_velocity = true) ∧
      (ch.pin .profile_velocity ≠ none ↔ ch.enabled.enable_profile_velocity = true) ∧
      (ch.pin .torque_slope ≠ none ↔ ch.enabled.enable_torque_slope = true) ∧
      (ch.pin .velocity_error_time ≠ none ↔ ch.enabled.enable_velocity_error_time = true) ∧
      (ch.pin .velocity_error_window ≠ none ↔ ch.enabled.enable_velocity_error_window = true) ∧
      (ch.pin .velocity_threshold_time ≠ none ↔ ch.enabled.enable_velocity_threshold_time = true) ∧
      (ch.pin .velocity_threshold_window ≠ none ↔ ch.enabled.enable_velocity_threshold_window = true) ∧
      (ch.pin .vl_accel ≠ none ↔ ch.enabled.enable_vl_accel = true) ∧
      (ch.pin .vl_decel ≠ none ↔ ch.enabled.enable_vl_decel = true) ∧
      (ch.pin .opmode_display ≠ none ↔ ch.enabled.enable_opmode_display = true) ∧
      (ch.pin .actual_current ≠ none ↔ ch.enabled.enable_actual_current = true) ∧
      (ch.pin .actual_position ≠ none ↔ ch.enabled.enable_actual_position = true) ∧
      (ch.pin .actual_torque ≠ none ↔ ch.enabled.enable_actual_torque = true) ∧
      (ch.pin .actual_velocity ≠ none ↔ ch.enabled.enable_actual_velocity = true) ∧
      (ch.pin .actual_velocity_sensor ≠ none ↔ ch.enabled.enable_actual_velocity_sensor = true) ∧
      (ch.pin .actual_vl ≠ none ↔ ch.enabled.enable_actual_vl = true) ∧
      (ch.pin .demand_vl ≠ none ↔ ch.enabled.enable_demand_vl = true) ∧
      (ch.pin .torque_demand ≠ none ↔ ch.enabled.enable_torque_demand = true) ∧
      (ch.pin .velocity_demand ≠ none ↔ ch.enabled.enable_velocity_demand = true) ∧
      (ch.pin .actual_following_error ≠ none ↔ ch.enabled.enable_actual_following_error = true) ∧
      (ch.pin .actual_voltage ≠ none ↔ ch.enabled.enable_actual_voltage = true)) := by
  constructor
  · intro hall
    have hcheck : (lcec_cia402_pins.all fun F =>
        !lcec_cia402_pin_wanted (lcec_cia402_enabled csp_others csv_others opt) F ||
          (hal_pin_new F).isSome) = true := by
      rw [List.all_eq_true]
      intro F _
      have hF := hall F
      cases hnew : hal_pin_new F with
      | none => exact absurd hnew hF
      | some a => simp
    unfold lcec_cia402_register_channel
    simp only [hcheck, if_true]
    exact ⟨_, rfl⟩
  · intro ch hch
    obtain ⟨hen, hgen⟩ := lcec_cia402_register_channel_pin_iff hal_pin_new lcec_pdo_init
      csp_others csv_others opt ch hch
    exact ⟨hen,
      hgen (.opmode) _ rfl, hgen (.home_method) _ rfl, hgen (.motion_profile) _ rfl,
      hgen (.target_position) _ rfl, hgen (.target_torque) _ rfl, hgen (.target_velocity) _ rfl,
      hgen (.target_vl) _ rfl, hgen (.torque_profile_type) _ rfl,
      hgen (.velocity_sensor_selector) _ rfl, hgen (.vl_maximum) _ rfl, hgen (.vl_minimum) _ rfl,
      hgen (.following_error_timeout) _ rfl, hgen (.following_error_window) _ rfl,
      hgen (.home_accel) _ rfl, hgen (.home_velocity_fast) _ rfl,
      hgen (.home_velocity_slow) _ rfl, hgen (.interpolation_time_period) _ rfl,
      hgen (.maximum_acceleration) _ rfl, hgen (.maximum_current) _ rfl,
      hgen (.maximum_deceleration) _ rfl, hgen (.maximum_motor_rpm) _ rfl,
      hgen (.maximum_torque) _ rfl, hgen (.motor_rated_current) _ rfl,
      hgen (.motor_rated_torque) _ rfl, hgen (.polarity) _ rfl, hgen (.profile_accel) _ rfl,
      hgen (.profile_decel) _ rfl, hgen (.profile_end_velocity) _ rfl,
      hgen (.profile_max_velocity) _ rfl, hgen (.profile_velocity) _ rfl,
      hgen (.torque_slope) _ rfl, hgen (.velocity_error_time) _ rfl,
      hgen (.velocity_error_window) _ rfl, hgen (.velocity_threshold_time) _ rfl,
      hgen (.velocity_threshold_window) _ rfl, hgen (.vl_accel) _ rfl, hgen (.vl_decel) _ rfl,
      hgen (.opmode_display) _ rfl, hgen (.actual_current) _ rfl, hgen (.actual_position) _ rfl,
      hgen (.actual_torque) _ rfl, hgen (.actual_velocity) _ rfl,
      hgen (.actual_velocity_sensor) _ rfl, hgen (.actual_vl) _ rfl, hgen (.demand_vl) _ rfl,
      hgen (.torque_demand) _ rfl, hgen (.velocity_demand) _ rfl,
      hgen (.actual_following_error) _ rfl, hgen (.actual_voltage) _ rfl⟩

theorem lcec_cia402_register_channel_pins_witness :
    (∀ F, hal_pin_new_example F ≠ none) ∧
    ∃ ch, lcec_cia402_register_channel hal_pin_new_example (fun _ => 0) cia402_enabled_none
        cia402_enabled_none cia402_options_example = some ch ∧
      ch.pin .target_position ≠ none ∧ ch.pin .actual_position ≠ none ∧
      ch.pin .actual_torque = none ∧ ch.pin .profile_velocity = none := by
  have hall : ∀ F, hal_pin_new_example F ≠ none := fun _ => Option.some_ne_none _
  have h := lcec_cia402_register_channel_pins hal_pin_new_example (fun _ => 0)
    cia402_enabled_none cia402_enabled_none cia402_options_example
  obtain ⟨ch, hch⟩ := h.1 hall
  obtain ⟨hen, h_opmode, h_home_method, h_motion_profile, h_target_position, h_target_torque,
    h_target_velocity, h_target_vl, h_torque_profile_type, h_velocity_sensor_selector,
    h_vl_maximum, h_vl_minimum, h_following_error_timeout, h_following_error_window, h_home_accel,
    h_home_velocity_fast, h_home_velocity_slow, h_interpolation_time_period,
    h_maximum_acceleration, h_maximum_current, h_maximum_deceleration, h_maximum_motor_rpm,
    h_maximum_torque, h_motor_rated_current, h_motor_rated_torque, h_polarity, h_profile_accel,
    h_profile_decel, h_profile_end_velocity, h_profile_max_velocity, h_profile_velocity,
    h_torque_slope, h_velocity_error_time, h_velocity_error_window, h_velocity_threshold_time,
    h_velocity_threshold_window, h_vl_accel, h_vl_decel, h_opmode_display, h_actual_current,
    h_actual_position, h_actual_torque, h_actual_velocity, h_actual_velocity_sensor, h_actual_vl,
    h_demand_vl, h_torque_demand, h_velocity_demand, h_actual_following_error, h_actual_voltage⟩ := h.2 ch hch
  refine ⟨hall, ch, hch, ?_, ?_, ?_, ?_⟩
  · exact h_target_position.mpr (by rw [hen]; decide)
  · exact h_actual_position.mpr (by rw [hen]; decide)
  · exact Classical.not_not.mp fun hne =>
      absurd (h_actual_torque.mp hne) (by rw [hen]; decide)
  · exact Classical.not_not.mp fun hne =>
      absurd (h_profile_velocity.mp hne) (by rw [hen]; decide)

/-- C19 (as amended): the Enabled Feature Set has exactly as many flags as the
Option Set. `lcec_class_cia402_enabled_t` and `lcec_class_cia402_options_t`
both have 52 `enable_*` fields, all of different names: 44 names are common to
both, the enabled set has no flag for the eight mode switches `enable_pp`,
`enable_pv`, `enable_csp`, `enable_csv`, `enable_ip`, `enable_vl`, `enable_tq`,
`enable_cst`, and it has the eight field flags `enable_actual_position`,
`enable_actual_velocity`, `enable_home_method`, `enable_home_velocity_fast`,
`enable_home_velocity_slow`, `enable_opmode_display`, `enable_target_position`,
`enable_target_velocity` instead. -/
theorem lcec_class_cia402_flag_counts (opt : lcec_class_cia402_options_t)
    (enabled : lcec_class_cia402_enabled_t) :
    (lcec_class_cia402_options_flags opt =
        lcec_class_cia402_options_fields.map fun field => field.2 opt) ∧
    (lcec_class_cia402_enabled_flags enabled =
        lcec_class_cia402_enabled_fields.map fun field => field.2 enabled) ∧
    (lcec_class_cia402_options_flags opt).length = 52 ∧
    (lcec_class_cia402_enabled_flags enabled).length = 52 ∧
    (lcec_class_cia402_enabled_flags enabled).length =
      (lcec_class_cia402_options_flags opt).length ∧
    lcec_class_cia402_options_names.Nodup ∧
    lcec_class_cia402_enabled_names.Nodup ∧
    (lcec_class_cia402_options_names.filter
        fun name => decide (name ∈ lcec_class_cia402_enabled_names)).length = 44 ∧
    (lcec_class_cia402_options_names.filter
        fun name => decide (name ∉ lcec_class_cia402_enabled_names)) =
      ["enable_pp", "enable_pv", "enable_csp", "enable_csv", "enable_ip", "enable_vl",
       "enable_tq", "enable_cst"] ∧
    (lcec_class_cia402_enabled_names.filter
        fun name => decide (name ∉ lcec_class_cia402_options_names)) =
      ["enable_actual_position", "enable_actual_velocity", "enable_home_method",
       "enable_home_velocity_fast", "enable_home_velocity_slow", "enable_opmode_display",
       "enable_target_position", "enable_target_velocity"] := by
  refine ⟨rfl, rfl, rfl, rfl, rfl, ?_, ?_, ?_, ?_, ?_⟩
  · decide
  · decide
  · decide
  · decide
  · decide

/-- C19, counterexample to the claim as stated: the number of `enable_*` fields
of the enabled set, counted on a concrete record, is not greater than the
number of `enable_*` fields of the option set. -/
theorem lcec_class_cia402_flag_counts_counterexample :
    ¬ ((lcec_class_cia402_options_flags cia402_options_example).length <
      (lcec_class_cia402_enabled_flags cia402_enabled_none).length) := by
  decide

/-! ## Headroom of the modparam identifier table -/

theorem CIA402_MP_table_mod16 : ∀ id ∈ CIA402_MP_table, id % 16 = 0 := by decide

/-- C20: the modparam identifier table has more headroom than its documented
stride. Every `CIA402_MP_*` identifier is a multiple of 16 and any two
different identifiers are at least 16 apart, so the derivation `id + c` is
collision-free for every channel index `c < 16`; for `c = 16` a collision
exists: `CIA402_MP_POSLIMIT_MIN + 16` is `CIA402_MP_POSLIMIT_MAX`. -/
theorem CIA402_MP_table_headroom :
    (∀ id ∈ CIA402_MP_table, id % 16 = 0) ∧
    (∀ id₁ ∈ CIA402_MP_table, ∀ id₂ ∈ CIA402_MP_table, id₁ ≠ id₂ →
      id₁ + 16 ≤ id₂ ∨ id₂ + 16 ≤ id₁) ∧
    (∀ id₁ ∈ CIA402_MP_table, ∀ id₂ ∈ CIA402_MP_table, ∀ c₁ c₂, c₁ < 16 → c₂ < 16 →
      channelized_id id₁ c₁ = channelized_id id₂ c₂ → id₁ = id₂ ∧ c₁ = c₂) ∧
    (CIA402_MP_POSLIMIT_MIN ∈ CIA402_MP_table ∧ CIA402_MP_POSLIMIT_MAX ∈ CIA402_MP_table ∧
      CIA402_MP_POSLIMIT_MIN ≠ CIA402_MP_POSLIMIT_MAX ∧
      CIA402_MP_POSLIMIT_MIN + 16 = CIA402_MP_POSLIMIT_MAX ∧
      channelized_id CIA402_MP_POSLIMIT_MIN 16 = channelized_id CIA402_MP_POSLIMIT_MAX 0) := by
  refine ⟨CIA402_MP_table_mod16, ?_, ?_, ?_⟩
  · intro id₁ h₁ id₂ h₂ hne
    have b₁ := CIA402_MP_table_mod16 id₁ h₁
    have b₂ := CIA402_MP_table_mod16 id₂ h₂
    omega
  · intro id₁ h₁ id₂ h₂ c₁ c₂ hc₁ hc₂ h
    have b₁ := CIA402_MP_table_mod16 id₁ h₁
    have b₂ := CIA402_MP_table_mod16 id₂ h₂
    unfold channelized_id at h
    omega
  · decide

/-! ## lcec_ex260_write: frame and idempotence -/

theorem lcec_ex260_s_congr (p q : lcec_ex260_pin_t)
    (h : lcec_ex260_pins p = lcec_ex260_pins q) : lcec_ex260_s p = lcec_ex260_s q := by
  obtain ⟨a0, a1, a2, a3, a4, a5, a6, a7, os, bp⟩ := p
  obtain ⟨b0, b1, b2, b3, b4, b5, b6, b7, os', bp'⟩ := q
  simp only [lcec_ex260_pins, List.cons.injEq, and_true] at h
  obtain ⟨h0, h1, h2, h3, h4, h5, h6, h7⟩ := h
  subst h0 h1 h2 h3 h4 h5 h6 h7
  rfl

theorem lcec_ex260_write_loop_frame (hal_data : Nat → lcec_ex260_pin_t) (pd : ProcessData)
    (n a : Nat) (h : ∀ j, j < n → (hal_data j).pdo_os ≠ a) :
    lcec_ex260_write_loop hal_data pd n a = pd a := by
  induction n with
  | zero => rfl
  | succ m ih =>
    rw [lcec_ex260_write_loop_other hal_data pd m a (h m (by omega))]
    exact ih (fun j hj => h j (by omega))

theorem lcec_ex260_write_loop_touched (hal_data hal_data' : Nat → lcec_ex260_pin_t)
    (pd pd' : ProcessData) (n a : Nat)
    (hsame : ∀ j, j < n → (hal_data j).pdo_os = (hal_data' j).pdo_os ∧
      lcec_ex260_pins (hal_data j) = lcec_ex260_pins (hal_data' j))
    (htouched : ∃ j, j < n ∧ (hal_data j).pdo_os = a) :
    lcec_ex260_write_loop hal_data pd n a = lcec_ex260_write_loop hal_data' pd' n a := by
  induction n with
  | zero =>
    obtain ⟨j, hj, _⟩ := htouched
    omega
  | succ m ih =>
    by_cases hm : (hal_data m).pdo_os = a
    · have hm' : (hal_data' m).pdo_os = a := by rw [← (hsame m (by omega)).1]; exact hm
      rw [← hm, lcec_ex260_write_loop_succ_at, hm, ← hm', lcec_ex260_write_loop_succ_at]
      rw [lcec_ex260_s_congr _ _ (hsame m (by omega)).2]
    · have hm' : (hal_data' m).pdo_os ≠ a := by rw [← (hsame m (by omega)).1]; exact hm
      rw [lcec_ex260_write_loop_other hal_data pd m a hm,
        lcec_ex260_write_loop_other hal_data' pd' m a hm']
      apply ih (fun j hj => hsame j (by omega))
      obtain ⟨j, hj, hja⟩ := htouched
      refine ⟨j, ?_, hja⟩
      by_cases hjm : j = m
      · subst hjm
        exact absurd hja hm
      · omega

theorem lcec_ex260_write_loop_idem (hal_data : Nat → lcec_ex260_pin_t) (pd : ProcessData)
    (n : Nat) :
    lcec_ex260_write_loop hal_data (lcec_ex260_write_loop hal_data pd n) n =
      lcec_ex260_write_loop hal_data pd n := by
  funext a
  by_cases htouched : ∃ j, j < n ∧ (hal_data j).pdo_os = a
  · exact lcec_ex260_write_loop_touched hal_data hal_data _ pd n a
      (fun _ _ => ⟨rfl, rfl⟩) htouched
  · apply lcec_ex260_write_loop_frame
    intro j hj hja
    exact htouched ⟨j, hj, hja⟩

theorem lcec_ex260_write_pd (slave : lcec_slave (Nat → lcec_ex260_pin_t))
    (hop : slave.state.operational = true) :
    lcec_ex260_write slave =
      { slave with process_data :=
          lcec_ex260_write_loop slave.hal_data slave.process_data slave.flags } := by
  unfold lcec_ex260_write
  simp [hop]

/-- C21: `lcec_ex260_write` overwrites a whole byte per bank and nothing else.
When the slave is operational and the banks' bytes are resolved to pairwise
different offsets: the byte at `pd[pin_i.pdo_os]` after the call depends only
on the eight pins of bank `i`, being the packed byte of these pins, so that any
other operational slave whose bank `i` has the same offset and the same eight
pins ends with the same byte there, whatever its process image held before,
whatever the `pdo_bp` and whatever its other banks; the bytes at the banks'
`pdo_os` depend neither on the prior content of the process image nor on any
`pdo_bp`; every byte other than the banks' `pdo_os` bytes is unchanged; and
calling the function twice gives the same process image, and the same slave
record, as calling it once. -/
theorem lcec_ex260_write_whole_byte (slave : lcec_slave (Nat → lcec_ex260_pin_t))
    (hop : slave.state.operational = true)
    (hdistinct : ∀ i j, i < slave.flags → j < slave.flags → i ≠ j →
      (slave.hal_data i).pdo_os ≠ (slave.hal_data j).pdo_os) :
    (∀ i, i < slave.flags →
      (lcec_ex260_write slave).process_data (slave.hal_data i).pdo_os =
        toByte (lcec_ex260_s (slave.hal_data i))) ∧
    (∀ (slave' : lcec_slave (Nat → lcec_ex260_pin_t)) (i : Nat),
      slave'.state.operational = true →
      (∀ k j, k < slave'.flags → j < slave'.flags → k ≠ j →
        (slave'.hal_data k).pdo_os ≠ (slave'.hal_data j).pdo_os) →
      i < slave.flags → i < slave'.flags →
      (slave'.hal_data i).pdo_os = (slave.hal_data i).pdo_os →
      lcec_ex260_pins (slave'.hal_data i) = lcec_ex260_pins (slave.hal_data i) →
      (lcec_ex260_write slave').process_data (slave.hal_data i).pdo_os =
        (lcec_ex260_write slave).process_data (slave.hal_data i).pdo_os) ∧
    (∀ (slave' : lcec_slave (Nat → lcec_ex260_pin_t)),
      slave'.state.operational = true → slave'.flags = slave.flags →
      (∀ j, j < slave.flags →
        (slave.hal_data j).pdo_os = (slave'.hal_data j).pdo_os ∧
        lcec_ex260_pins (slave.hal_data j) = lcec_ex260_pins (slave'.hal_data j)) →
      ∀ i, i < slave.flags →
        (lcec_ex260_write slave').process_data (slave.hal_data i).pdo_os =
          (lcec_ex260_write slave).process_data (slave.hal_data i).pdo_os) ∧
    (∀ a, (∀ i, i < slave.flags → (slave.hal_data i).pdo_os ≠ a) →
      (lcec_ex260_write slave).process_data a = slave.process_data a) ∧
    (lcec_ex260_write (lcec_ex260_write slave)).process_data =
      (lcec_ex260_write slave).process_data ∧
    lcec_ex260_write (lcec_ex260_write slave) = lcec_ex260_write slave := by
  have hw := lcec_ex260_write_pd slave hop
  have hidem : lcec_ex260_write (lcec_ex260_write slave) = lcec_ex260_write slave := by
    have hop2 : (lcec_ex260_write slave).state.operational = true := by rw [hw]; exact hop
    rw [lcec_ex260_write_pd (lcec_ex260_write slave) hop2, hw]
    dsimp only
    rw [lcec_ex260_write_loop_idem]
  have hbyte : ∀ i, i < slave.flags →
      (lcec_ex260_write slave).process_data (slave.hal_data i).pdo_os =
        toByte (lcec_ex260_s (slave.hal_data i)) := by
    intro i hi
    rw [hw]
    exact lcec_ex260_write_loop_keep slave.hal_data slave.process_data i slave.flags hi
      (fun j hij hj => hdistinct j i hj hi (by omega))
  refine ⟨hbyte, ?_, ?_, ?_, ?_, hidem⟩
  · intro slave' i hop' hdistinct' hi hi' hos hpins
    rw [hbyte i hi, lcec_ex260_write_pd slave' hop', ← hos]
    dsimp only
    rw [lcec_ex260_write_loop_keep slave'.hal_data slave'.process_data i slave'.flags hi'
        (fun j hij hj => hdistinct' j i hj hi' (by omega)),
      lcec_ex260_s_congr _ _ hpins]
  · intro slave' hop' hflags hsame i hi
    rw [hw, lcec_ex260_write_pd slave' hop', hflags]
    dsimp only
    exact (lcec_ex260_write_loop_touched slave.hal_data slave'.hal_data slave.process_data
      slave'.process_data slave.flags _ hsame ⟨i, hi, rfl⟩).symm
  · intro a ha
    rw [hw]
    exact lcec_ex260_write_loop_frame slave.hal_data slave.process_data slave.flags a ha
  · rw [hidem]

theorem lcec_ex260_write_whole_byte_witness :
    (slave_example true 2 ex260_example).state.operational = true ∧
    (∀ i j, i < (slave_example true 2 ex260_example).flags →
      j < (slave_example true 2 ex260_example).flags → i ≠ j →
      ((slave_example true 2 ex260_example).hal_data i).pdo_os ≠
        ((slave_example true 2 ex260_example).hal_data j).pdo_os) ∧
    (lcec_ex260_write (slave_example true 2 ex260_example)).process_data 5 = 0x02 ∧
    (lcec_ex260_write (slave_example_zero ex260_example_bp)).process_data 4 =
      (lcec_ex260_write (slave_example true 2 ex260_example)).process_data 4 ∧
    (lcec_ex260_write (slave_example true 2 ex260_example)).process_data 3 = pd_example 3 ∧
    lcec_ex260_write (lcec_ex260_write (slave_example true 2 ex260_example)) =
      lcec_ex260_write (slave_example true 2 ex260_example) :=
  ⟨rfl, ex260_example_offsets_distinct ex260_example rfl rfl,
    ((lcec_ex260_write_whole_byte (slave_example true 2 ex260_example) rfl
      (ex260_example_offsets_distinct ex260_example rfl rfl)).1 1 (by decide)).trans
      (by decide),
    (lcec_ex260_write_whole_byte (slave_example true 2 ex260_example) rfl
      (ex260_example_offsets_distinct ex260_example rfl rfl)).2.1
      (slave_example_zero ex260_example_bp) 0 rfl
      (ex260_example_offsets_distinct ex260_example_bp rfl rfl) (by decide) (by decide)
      rfl rfl,
    (lcec_ex260_write_whole_byte (slave_example true 2 ex260_example) rfl
      (ex260_example_offsets_distinct ex260_example rfl rfl)).2.2.2.1 3
      (fun i hi => by
        have hi2 : i < 2 := hi
        interval_cases i <;> decide),
    (lcec_ex260_write_whole_byte (slave_example true 2 ex260_example) rfl
      (ex260_example_offsets_distinct ex260_example rfl rfl)).2.2.2.2.2⟩

/-! ## lcec_ax5200_preinit -/

/-- C22: `lcec_ax5200_preinit` never replaces an existing FSoE configuration and
is idempotent. It always returns 0; if `slave->fsoeConf` is not `NULL` on entry
the slave is left as it is; if it is `NULL` it is set to the driver's
configuration (`slave_data_len` 2, `master_data_len` 2, `data_channels` 2) and
nothing else changes; calling it twice leaves the same state as calling it
once. -/
theorem lcec_ax5200_preinit_idempotent {H : Type} (slave : lcec_slave H) :
    (lcec_ax5200_preinit slave).1 = 0 ∧
    (slave.fsoeConf ≠ none → (lcec_ax5200_preinit slave).2 = slave) ∧
    (slave.fsoeConf = none →
      (lcec_ax5200_preinit slave).2 = { slave with fsoeConf := some lcec_ax5200_fsoe_conf }) ∧
    lcec_ax5200_fsoe_conf = { slave_data_len := 2, master_data_len := 2, data_channels := 2 } ∧
    (lcec_ax5200_preinit slave).2.fsoeConf ≠ none ∧
    lcec_ax5200_preinit (lcec_ax5200_preinit slave).2 = lcec_ax5200_preinit slave := by
  unfold lcec_ax5200_preinit
  cases h : slave.fsoeConf with
  | none => simp [h, lcec_ax5200_fsoe_conf]
  | some c => simp [h, lcec_ax5200_fsoe_conf]

end Lcec
